import Mathlib

/-!
Verification of the Olist seller-dashboard analytics engine.

The Python sources are shallowly embedded over exact rationals (ℚ):
pandas DataFrames become lists of row structures, `float` arithmetic
becomes ℚ arithmetic, nullable columns become `Option` fields, and
Python's `round(x, 1)` becomes `round1` below.  Transcendental
primitives (`np.log1p`, the haversine distance) are abstracted as
function parameters; no property proved here depends on their values.
-/

/-- Model of Python `round(x, 1)`: round `10·x` to the nearest integer and
divide by 10.  (Mathlib's `round` resolves exact halves upward; Python's
float `round` resolves them to even.  No theorem or witness below evaluates
`round1` at an exact half, so the two agree on everything proved here.) -/
def round1 (x : ℚ) : ℚ := ((round (10 * x) : ℤ) : ℚ) / 10

/-- Embedding of `_clamp(val, lo=0.0, hi=100.0)` from `engine/health_score.py`. -/
def clamp (val : ℚ) (lo : ℚ := 0) (hi : ℚ := 100) : ℚ := max lo (min hi val)

/-- Mean of a list of rationals (`Series.mean()` on a non-empty series;
division by zero in ℚ returns 0, callers guard emptiness as the source does). -/
def listMean (l : List ℚ) : ℚ := l.sum / l.length

theorem round_mono {x y : ℚ} (h : x ≤ y) : round x ≤ round y := by
  rw [round_eq, round_eq]
  exact Int.floor_le_floor (by linarith)

theorem round1_mono {x y : ℚ} (h : x ≤ y) : round1 x ≤ round1 y := by
  unfold round1
  have : round (10 * x) ≤ round (10 * y) := round_mono (by linarith)
  have h10 : (0:ℚ) < 10 := by norm_num
  exact (div_le_div_iff_of_pos_right h10).mpr (by exact_mod_cast this)

theorem round1_nonneg {x : ℚ} (h : 0 ≤ x) : 0 ≤ round1 x := by
  have : round1 0 ≤ round1 x := round1_mono h
  simpa [round1] using this

theorem round1_le_100 {x : ℚ} (h : x ≤ 100) : round1 x ≤ 100 := by
  have : round1 x ≤ round1 100 := round1_mono h
  have h100 : round1 100 = 100 := by norm_num [round1]
  rwa [h100] at this

theorem clamp_nonneg (x : ℚ) : 0 ≤ clamp x := le_max_left _ _

theorem clamp_le_100 (x : ℚ) : clamp x ≤ 100 := by
  unfold clamp
  exact max_le (by norm_num) (min_le_left _ _)

theorem clamp_mono {x y : ℚ} (h : x ≤ y) : clamp x ≤ clamp y := by
  unfold clamp
  exact max_le_max le_rfl (min_le_min le_rfl h)

theorem clamp_eq_self {x : ℚ} (h0 : 0 ≤ x) (h1 : x ≤ 100) : clamp x = x := by
  unfold clamp
  rw [min_eq_right h1, max_eq_right h0]

/-! ## Health scorer (`engine/health_score.py`, `config.py`) -/

/-- The six dimension scores produced by `compute_dimension_scores`. -/
structure DimensionScores where
  revenue : ℚ
  orders : ℚ
  review : ℚ
  delivery : ℚ
  product : ℚ
  reach : ℚ
deriving DecidableEq

/-- The Top-Performer row (`CLUSTER_BENCHMARKS[0]`) of `engine/benchmarks.py`;
only the fields read by the health scorer are embedded. -/
structure ClusterBenchmark where
  total_orders : ℚ
  total_revenue : ℚ
  product_variety : ℚ
  unique_customers : ℚ
deriving DecidableEq

def CLUSTER_BENCHMARKS_top : ClusterBenchmark :=
  { total_orders := 98.5
    total_revenue := 12161.0
    product_variety := 36.3
    unique_customers := 87.4 }

/-- Embedding of `compute_dimension_scores`.  `np.log1p` (transcendental) is
abstracted as the parameter `log1p`; the claims checked here do not depend on
its values. -/
def compute_dimension_scores (log1p : ℚ → ℚ)
    (total_revenue : ℚ) (total_orders : ℤ)
    (avg_review low_review_pct avg_delivery_days late_delivery_pct : ℚ)
    (product_variety unique_customers : ℤ) : DimensionScores :=
  let top := CLUSTER_BENCHMARKS_top
  let rev_score : ℚ :=
    if 0 < total_revenue then
      clamp (log1p total_revenue / log1p top.total_revenue * 100)
    else 0
  let ord_score : ℚ :=
    if 0 < total_orders then
      clamp (log1p (total_orders : ℚ) / log1p top.total_orders * 100)
    else 0
  let rev_score_dim : ℚ :=
    if 0 < avg_review then
      clamp (clamp ((avg_review - 1) / 4 * 100) - low_review_pct * 50)
    else 0
  let del_score : ℚ :=
    if 0 < avg_delivery_days then
      clamp ((30 - avg_delivery_days) / 23 * 100) * 0.6
        + clamp ((1 - late_delivery_pct) * 100) * 0.4
    else 50.0
  let prod_score : ℚ := clamp ((product_variety : ℚ) / top.product_variety * 100)
  let reach_score : ℚ :=
    if 0 < unique_customers then
      clamp (log1p (unique_customers : ℚ) / log1p top.unique_customers * 100)
    else 0
  { revenue := round1 rev_score
    orders := round1 ord_score
    review := round1 rev_score_dim
    delivery := round1 del_score
    product := round1 prod_score
    reach := round1 reach_score }

/-- `HEALTH_WEIGHTS` from `config.py`, as an ordered key/weight list. -/
def HEALTH_WEIGHTS : List (String × ℚ) :=
  [("revenue", 0.20), ("orders", 0.15), ("review", 0.25),
   ("delivery", 0.20), ("product", 0.10), ("reach", 0.10)]

/-- Model of `dimension_scores.get(dim, 0.0)`: dictionary access with
default 0 on the six-key score record. -/
def dimGet (d : DimensionScores) (key : String) : ℚ :=
  if key = "revenue" then d.revenue
  else if key = "orders" then d.orders
  else if key = "review" then d.review
  else if key = "delivery" then d.delivery
  else if key = "product" then d.product
  else if key = "reach" then d.reach
  else 0

/-- Embedding of `compute_health_score`: weighted accumulation over
`HEALTH_WEIGHTS`, clamped to [0,100], rounded to one decimal. -/
def compute_health_score (d : DimensionScores) : ℚ :=
  round1 (clamp ((HEALTH_WEIGHTS.map (fun w => dimGet d w.1 * w.2)).sum))

/-- The composite formula exactly as the spec words it (claim C2): a plain
weighted sum with the fixed weights, no clamp and no rounding.  Kept separate
so the code's `compute_health_score` can be compared against it. -/
def healthWeightedSumSpec (d : DimensionScores) : ℚ :=
  d.revenue * 0.20 + d.orders * 0.15 + d.review * 0.25
    + d.delivery * 0.20 + d.product * 0.10 + d.reach * 0.10

/-- All six dimension scores lie in [0,100]. -/
def dimsInRange (d : DimensionScores) : Prop :=
  (0 ≤ d.revenue ∧ d.revenue ≤ 100) ∧ (0 ≤ d.orders ∧ d.orders ≤ 100)
    ∧ (0 ≤ d.review ∧ d.review ≤ 100) ∧ (0 ≤ d.delivery ∧ d.delivery ≤ 100)
    ∧ (0 ≤ d.product ∧ d.product ≤ 100) ∧ (0 ≤ d.reach ∧ d.reach ≤ 100)

/-- Pointwise order on dimension-score records. -/
def dimsLe (d d' : DimensionScores) : Prop :=
  d.revenue ≤ d'.revenue ∧ d.orders ≤ d'.orders ∧ d.review ≤ d'.review
    ∧ d.delivery ≤ d'.delivery ∧ d.product ≤ d'.product ∧ d.reach ≤ d'.reach

theorem healthWeightsMapSum (d : DimensionScores) :
    (HEALTH_WEIGHTS.map (fun w => dimGet d w.1 * w.2)).sum = healthWeightedSumSpec d := by
  simp [HEALTH_WEIGHTS, dimGet, healthWeightedSumSpec]
  ring

/-- C2 counterexample: at dimension scores all equal to 0.16 (inside [0,100]),
the composite health score is 0.2 — the code rounds to one decimal — so it
does not equal the plain weighted sum 0.16 the claim states. -/
theorem compute_health_score_ne_weighted_sum :
    healthWeightedSumSpec ⟨4/25, 4/25, 4/25, 4/25, 4/25, 4/25⟩ = 4/25
    ∧ compute_health_score ⟨4/25, 4/25, 4/25, 4/25, 4/25, 4/25⟩ = 1/5
    ∧ compute_health_score ⟨4/25, 4/25, 4/25, 4/25, 4/25, 4/25⟩
        ≠ healthWeightedSumSpec ⟨4/25, 4/25, 4/25, 4/25, 4/25, 4/25⟩ := by
  have h1 : healthWeightedSumSpec ⟨4/25, 4/25, 4/25, 4/25, 4/25, 4/25⟩ = 4/25 := by
    norm_num [healthWeightedSumSpec]
  have h2 : compute_health_score ⟨4/25, 4/25, 4/25, 4/25, 4/25, 4/25⟩ = 1/5 := by
    norm_num [compute_health_score, HEALTH_WEIGHTS, dimGet, clamp, round1, round_eq,
      min_def, max_def]
  exact ⟨h1, h2, by rw [h1, h2]; norm_num⟩

/-- C2 (amended): for dimension scores in [0,100], `compute_health_score` is
the fixed-weight weighted sum rounded to one decimal (the weights sum to 1),
its value always lies in [0,100], and it is monotonically non-decreasing in
every dimension score. -/
theorem compute_health_score_weighted_monotone
    (d d' : DimensionScores) (hr : dimsInRange d) (hle : dimsLe d d') :
    (HEALTH_WEIGHTS.map Prod.snd).sum = 1
    ∧ compute_health_score d = round1 (healthWeightedSumSpec d)
    ∧ 0 ≤ compute_health_score d ∧ compute_health_score d ≤ 100
    ∧ compute_health_score d ≤ compute_health_score d' := by
  obtain ⟨⟨a0, a1⟩, ⟨b0, b1⟩, ⟨c0, c1⟩, ⟨e0, e1⟩, ⟨f0, f1⟩, ⟨g0, g1⟩⟩ := hr
  obtain ⟨la, lb, lc, le', lf, lg⟩ := hle
  have hS0 : 0 ≤ healthWeightedSumSpec d := by
    unfold healthWeightedSumSpec; linarith
  have hS100 : healthWeightedSumSpec d ≤ 100 := by
    unfold healthWeightedSumSpec; linarith
  refine ⟨by norm_num [HEALTH_WEIGHTS], ?_, ?_, ?_, ?_⟩
  · unfold compute_health_score
    rw [healthWeightsMapSum, clamp_eq_self hS0 hS100]
  · exact round1_nonneg (clamp_nonneg _)
  · exact round1_le_100 (clamp_le_100 _)
  · unfold compute_health_score
    rw [healthWeightsMapSum, healthWeightsMapSum]
    refine round1_mono (clamp_mono ?_)
    unfold healthWeightedSumSpec
    linarith

theorem compute_health_score_weighted_monotone_witness :
    dimsInRange ⟨0, 0, 0, 0, 0, 0⟩
    ∧ dimsLe ⟨0, 0, 0, 0, 0, 0⟩ ⟨100, 100, 100, 100, 100, 100⟩
    ∧ ((HEALTH_WEIGHTS.map Prod.snd).sum = 1
       ∧ compute_health_score ⟨0, 0, 0, 0, 0, 0⟩
           = round1 (healthWeightedSumSpec ⟨0, 0, 0, 0, 0, 0⟩)
       ∧ 0 ≤ compute_health_score ⟨0, 0, 0, 0, 0, 0⟩
       ∧ compute_health_score ⟨0, 0, 0, 0, 0, 0⟩ ≤ 100
       ∧ compute_health_score ⟨0, 0, 0, 0, 0, 0⟩
           ≤ compute_health_score ⟨100, 100, 100, 100, 100, 100⟩) :=
  ⟨by norm_num [dimsInRange], by norm_num [dimsLe],
   compute_health_score_weighted_monotone _ _ (by norm_num [dimsInRange])
     (by norm_num [dimsLe])⟩

/-- C6 counterexample: with average delivery days 8 and late rate 0 (a seller
with delivered-order data) the delivery dimension score is 97.4 — the code
rounds to one decimal — while the claimed blend formula gives 2240/23 ≈ 97.391. -/
theorem delivery_score_ne_blend_formula :
    (compute_dimension_scores (fun _ => 0) 0 0 0 0 8 0 0 0).delivery = 487/5
    ∧ 0.6 * clamp ((30 - 8) / 23 * 100) + 0.4 * clamp ((1 - 0) * 100) = 2240/23
    ∧ (487/5 : ℚ) ≠ 2240/23 := by
  refine ⟨?_, ?_, by norm_num⟩
  · norm_num [compute_dimension_scores, clamp, round1, round_eq, min_def, max_def]
  · norm_num [clamp, min_def, max_def]

/-- C6 (amended): when `avg_delivery_days > 0` the delivery dimension score is
the blend `0.6·clamp((30−d)/23·100) + 0.4·clamp((1−late)·100)` rounded to one
decimal; when `avg_delivery_days ≤ 0` — in particular for a seller with zero
delivered orders, where it defaults to 0 — the score is exactly 50. -/
theorem delivery_score_blend_or_neutral (log1p : ℚ → ℚ)
    (tr : ℚ) (tor : ℤ) (ar lrp add ldp : ℚ) (pv uc : ℤ) :
    (0 < add →
      (compute_dimension_scores log1p tr tor ar lrp add ldp pv uc).delivery
        = round1 (clamp ((30 - add) / 23 * 100) * 0.6
            + clamp ((1 - ldp) * 100) * 0.4))
    ∧ (add ≤ 0 →
      (compute_dimension_scores log1p tr tor ar lrp add ldp pv uc).delivery = 50) := by
  constructor
  · intro h
    simp [compute_dimension_scores, if_pos h]
  · intro h
    simp [compute_dimension_scores, if_neg (not_lt.mpr h)]
    norm_num [round1, round_eq]

theorem delivery_score_blend_or_neutral_witness :
    ((0:ℚ) < 8
     ∧ (compute_dimension_scores (fun _ => 0) 0 0 0 0 8 0 0 0).delivery
        = round1 (clamp ((30 - 8) / 23 * 100) * 0.6 + clamp ((1 - 0) * 100) * 0.4))
    ∧ ((0:ℚ) ≤ 0
       ∧ (compute_dimension_scores (fun _ => 0) 0 0 0 0 0 0 0 0).delivery = 50) :=
  ⟨⟨by norm_num,
    (delivery_score_blend_or_neutral (fun _ => 0) 0 0 0 0 8 0 0 0).1 (by norm_num)⟩,
   ⟨le_refl 0,
    (delivery_score_blend_or_neutral (fun _ => 0) 0 0 0 0 0 0 0 0).2 (by norm_num)⟩⟩

/-! ## Review text classifier (`engine/review_analyzer.py`) -/

/-- `charsLead needle hay`: the character list `hay` starts with `needle`. -/
def charsLead : List Char → List Char → Bool
  | [], _ => true
  | _ :: _, [] => false
  | a :: as, b :: bs => a == b && charsLead as bs

/-- `charsContain needle hay`: `needle` occurs contiguously inside `hay`
(Python's `needle in hay` on strings). -/
def charsContain (needle : List Char) : List Char → Bool
  | [] => needle.isEmpty
  | c :: t => charsLead needle (c :: t) || charsContain needle t

/-- Python `kw in text` substring test on strings. -/
def strContains (hay kw : String) : Bool := charsContain kw.data hay.data

/-- Model of Python `str.lower()`.  `Char.toLower` folds ASCII letters only;
the fixed keyword lists are already lower-case, and no claim checked here
touches upper-case non-ASCII input. -/
def toLowerStr (s : String) : String := String.mk (s.data.map Char.toLower)

/-- `ISSUE_KEYWORDS`: the four fixed issue categories with their Portuguese
keyword lists, in declaration order. -/
def ISSUE_KEYWORDS : List (String × List String) :=
  [("배송 지연",
    ["entrega", "atraso", "atrasou", "demora", "demorou", "demoro",
     "prazo", "dias", "semana", "semanas", "chegou tarde", "não chegou",
     "nao chegou", "frete", "correios", "transportadora", "encomenda",
     "rastreio", "rastreamento", "extraviado", "perdido"]),
   ("상품 품질",
    ["qualidade", "defeito", "defeituoso", "quebrado", "quebrou",
     "danificado", "estragado", "ruim", "péssimo", "pessimo",
     "horrível", "horrivel", "lixo", "porcaria", "não funciona",
     "nao funciona", "parou", "problema", "falha"]),
   ("포장 문제",
    ["embalagem", "amassado", "amassada", "caixa", "proteção",
     "protecao", "aberta", "aberto", "rasgado", "rasgada",
     "mal embalado", "sem proteção", "sem protecao"]),
   ("기대 불일치",
    ["foto", "imagem", "descrição", "descricao", "tamanho",
     "cor", "diferente", "parece", "esperava", "não corresponde",
     "nao corresponde", "enganoso", "propaganda", "falso", "falsa",
     "menor", "maior", "errado", "errada"])]

/-- `POSITIVE_KEYWORDS` from `review_analyzer.py`. -/
def POSITIVE_KEYWORDS : List String :=
  ["excelente", "ótimo", "otimo", "perfeito", "maravilhoso",
   "recomendo", "amei", "adorei", "rápido", "rapido",
   "antes do prazo", "chegou antes", "boa qualidade",
   "muito bom", "satisfeito", "satisfeita", "nota 10"]

/-- Embedding of `classify_review`: multi-label keyword matching; a category
is appended once if any of its keywords occurs in the lower-cased text
(the inner loop's `break` = at most one hit per category). -/
def classify_review (text : String) : List String :=
  if text = "" then []
  else
    let text_lower := toLowerStr text
    ISSUE_KEYWORDS.filterMap fun ck =>
      if ck.2.any (fun kw => strContains text_lower kw) then some ck.1 else none

/-- Embedding of `is_positive_review`. -/
def is_positive_review (text : String) : Bool :=
  if text = "" then false
  else POSITIVE_KEYWORDS.any (fun kw => strContains (toLowerStr text) kw)

/-- One increment on a `collections.Counter`, modelled as an association list
that preserves key insertion order. -/
def counterAdd : List (String × ℕ) → String → List (String × ℕ)
  | [], k => [(k, 1)]
  | (k', v) :: t, k =>
      if k' = k then (k', v + 1) :: t else (k', v) :: counterAdd t k

def counterAddMany (c : List (String × ℕ)) (ks : List String) : List (String × ℕ) :=
  ks.foldl counterAdd c

/-- `Counter.most_common(1)[0][0]`: the first-encountered key of maximal
count (`heapq.nlargest` is stable, so ties keep Counter insertion order). -/
def mostCommonGo (k : String) (v : ℕ) : List (String × ℕ) → String
  | [] => k
  | (k', v') :: t => if v' > v then mostCommonGo k' v' t else mostCommonGo k v t

def mostCommonKey : List (String × ℕ) → Option String
  | [] => none
  | (k, v) :: t => some (mostCommonGo k v t)

/-- One row of the review frame handed to `analyze_seller_reviews`. -/
structure ReviewRow where
  review_score : Option ℚ
  review_comment_message : Option String
deriving DecidableEq

/-- Result of `analyze_seller_reviews`.  The presentational fields
`issue_pct` and `examples` are derived views of `issue_counts` and are not
referenced by any claim, so they are not embedded. -/
structure ReviewAnalysis where
  issue_counts : List (String × ℕ)
  negative_issues : List (String × ℕ)
  positive_count : ℕ
  analyzed_count : ℕ
  total_count : ℕ
  primary_issue : Option String
deriving DecidableEq

/-- Embedding of `analyze_seller_reviews`: iterate the comment-bearing rows
(`dropna(subset=["review_comment_message"])`), accumulate category counters,
the low-score (≤2) counter and the positive count, then take the most common
key.  The source's early returns on empty frames produce exactly the values
this fold yields on empty lists. -/
def analyze_seller_reviews (rows : List ReviewRow) : ReviewAnalysis :=
  let text_reviews :=
    rows.filterMap (fun r => r.review_comment_message.map (fun t => (r.review_score, t)))
  let res := text_reviews.foldl
    (fun (acc : List (String × ℕ) × List (String × ℕ) × ℕ) p =>
      let categories := classify_review p.2
      let allC := counterAddMany acc.1 categories
      let negC := if p.1.getD 3 ≤ 2 then counterAddMany acc.2.1 categories else acc.2.1
      let posC := acc.2.2 + (if is_positive_review p.2 then 1 else 0)
      (allC, negC, posC))
    ([], [], 0)
  { issue_counts := res.1
    negative_issues := res.2.1
    positive_count := res.2.2
    analyzed_count := text_reviews.length
    total_count := rows.length
    primary_issue := mostCommonKey res.1 }

theorem mostCommonGo_spec (t : List (String × ℕ)) : ∀ (k : String) (v : ℕ),
    (mostCommonGo k v t = k ∧ ∀ e ∈ t, e.2 ≤ v)
    ∨ (∃ c, (mostCommonGo k v t, c) ∈ t ∧ v < c ∧ (∀ e ∈ t, e.2 ≤ c)
        ∧ ∀ e ∈ t.takeWhile (fun e => e.1 != mostCommonGo k v t), e.2 < c) := by
  induction t with
  | nil => intro k v; exact Or.inl ⟨rfl, by simp⟩
  | cons e t ih =>
    intro k v
    by_cases h : e.2 > v
    · have hgo : mostCommonGo k v (e :: t) = mostCommonGo e.1 e.2 t := by
        obtain ⟨k', v'⟩ := e
        simp only [mostCommonGo, if_pos h]
      rcases ih e.1 e.2 with ⟨heq, hall⟩ | ⟨c, hmem, hlt, hall, htw⟩
      · refine Or.inr ⟨e.2, ?_, h, ?_, ?_⟩
        · rw [hgo, heq]; exact List.mem_cons_self _ _
        · intro x hx
          rcases List.mem_cons.mp hx with rfl | hx
          · exact le_rfl
          · exact hall x hx
        · rw [hgo, heq]
          have : (e.1 != e.1) = false := by simp
          simp [List.takeWhile, this]
      · refine Or.inr ⟨c, ?_, lt_trans h hlt, ?_, ?_⟩
        · rw [hgo]; exact List.mem_cons_of_mem _ hmem
        · intro x hx
          rcases List.mem_cons.mp hx with rfl | hx
          · exact le_of_lt hlt
          · exact hall x hx
        · rw [hgo]
          by_cases hk : (e.1 != mostCommonGo e.1 e.2 t) = true
          · intro x hx
            simp only [List.takeWhile, hk] at hx
            rcases List.mem_cons.mp hx with rfl | hx
            · exact hlt
            · exact htw x hx
          · intro x hx
            simp only [List.takeWhile] at hx
            rw [Bool.not_eq_true] at hk
            rw [hk] at hx
            simp at hx
    · have hgo : mostCommonGo k v (e :: t) = mostCommonGo k v t := by
        obtain ⟨k', v'⟩ := e
        simp only [mostCommonGo, if_neg h]
      push_neg at h
      rcases ih k v with ⟨heq, hall⟩ | ⟨c, hmem, hlt, hall, htw⟩
      · refine Or.inl ⟨by rw [hgo, heq], ?_⟩
        intro x hx
        rcases List.mem_cons.mp hx with rfl | hx
        · exact h
        · exact hall x hx
      · refine Or.inr ⟨c, ?_, hlt, ?_, ?_⟩
        · rw [hgo]; exact List.mem_cons_of_mem _ hmem
        · intro x hx
          rcases List.mem_cons.mp hx with rfl | hx
          · exact le_trans h (le_of_lt hlt)
          · exact hall x hx
        · rw [hgo]
          by_cases hk : (e.1 != mostCommonGo k v t) = true
          · intro x hx
            simp only [List.takeWhile, hk] at hx
            rcases List.mem_cons.mp hx with rfl | hx
            · exact lt_of_le_of_lt h hlt
            · exact htw x hx
          · intro x hx
            simp only [List.takeWhile] at hx
            rw [Bool.not_eq_true] at hk
            rw [hk] at hx
            simp at hx

theorem mostCommonKey_spec (l : List (String × ℕ)) :
    (l = [] → mostCommonKey l = none)
    ∧ ∀ p, mostCommonKey l = some p →
        ∃ c, (p, c) ∈ l ∧ (∀ e ∈ l, e.2 ≤ c)
          ∧ ∀ e ∈ l.takeWhile (fun e => e.1 != p), e.2 < c := by
  cases l with
  | nil => exact ⟨fun _ => rfl, fun p hp => by simp [mostCommonKey] at hp⟩
  | cons e t =>
    refine ⟨fun h => by simp at h, fun p hp => ?_⟩
    obtain ⟨k, v⟩ := e
    simp only [mostCommonKey, Option.some.injEq] at hp
    rcases mostCommonGo_spec t k v with ⟨heq, hall⟩ | ⟨c, hmem, hlt, hall, htw⟩
    · refine ⟨v, ?_, ?_, ?_⟩
      · rw [← hp, heq]; exact List.mem_cons_self _ _
      · intro x hx
        rcases List.mem_cons.mp hx with rfl | hx
        · exact le_rfl
        · exact hall x hx
      · rw [← hp, heq]
        have : (k != k) = false := by simp
        simp [List.takeWhile, this]
    · refine ⟨c, ?_, ?_, ?_⟩
      · rw [← hp]; exact List.mem_cons_of_mem _ hmem
      · intro x hx
        rcases List.mem_cons.mp hx with rfl | hx
        · exact le_of_lt hlt
        · exact hall x hx
      · rw [← hp]
        by_cases hk : (k != mostCommonGo k v t) = true
        · intro x hx
          simp only [List.takeWhile, hk] at hx
          rcases List.mem_cons.mp hx with rfl | hx
          · exact hlt
          · exact htw x hx
        · intro x hx
          simp only [List.takeWhile] at hx
          rw [Bool.not_eq_true] at hk
          rw [hk] at hx
          simp at hx

/-- C8 counterexample: one review matching only the product-quality keywords
followed by one matching only the delivery-delay keywords gives both
categories count 1, yet `primary_issue` is the product-quality category
("상품 품질") — Counter insertion order, not the keyword-set declaration
order, in which the delivery-delay category ("배송 지연") comes first. -/
theorem primary_issue_tie_not_declaration_order :
    (analyze_seller_reviews
        [⟨some 5, some "qualidade"⟩, ⟨some 5, some "atraso"⟩]).issue_counts
      = [("상품 품질", 1), ("배송 지연", 1)]
    ∧ (analyze_seller_reviews
        [⟨some 5, some "qualidade"⟩, ⟨some 5, some "atraso"⟩]).primary_issue
      = some "상품 품질"
    ∧ "상품 품질" ≠ "배송 지연" := by
  refine ⟨by decide, by decide, by decide⟩

/-- C8 (amended): `primary_issue` is a category of maximal match count, but
ties are broken by Counter insertion order — the order in which categories
first matched some analyzed review — not by the keyword-set declaration
order: every entry of `issue_counts` listed before the primary one has a
strictly smaller count. -/
theorem analyze_primary_first_max (rows : List ReviewRow) :
    ((analyze_seller_reviews rows).issue_counts = [] →
        (analyze_seller_reviews rows).primary_issue = none)
    ∧ ∀ p, (analyze_seller_reviews rows).primary_issue = some p →
        ∃ c, (p, c) ∈ (analyze_seller_reviews rows).issue_counts
          ∧ (∀ e ∈ (analyze_seller_reviews rows).issue_counts, e.2 ≤ c)
          ∧ ∀ e ∈ (analyze_seller_reviews rows).issue_counts.takeWhile
              (fun e => e.1 != p), e.2 < c := by
  have hpe : (analyze_seller_reviews rows).primary_issue
      = mostCommonKey (analyze_seller_reviews rows).issue_counts := rfl
  have hs := mostCommonKey_spec (analyze_seller_reviews rows).issue_counts
  exact ⟨fun h => by rw [hpe]; exact hs.1 h,
         fun p hp => hs.2 p (by rw [← hpe]; exact hp)⟩

theorem analyze_primary_first_max_witness :
    (analyze_seller_reviews [⟨some 5, some "qualidade"⟩]).primary_issue
      = some "상품 품질"
    ∧ ∃ c, ("상품 품질", c) ∈ (analyze_seller_reviews
          [⟨some 5, some "qualidade"⟩]).issue_counts
        ∧ (∀ e ∈ (analyze_seller_reviews
              [⟨some 5, some "qualidade"⟩]).issue_counts, e.2 ≤ c)
        ∧ ∀ e ∈ (analyze_seller_reviews
              [⟨some 5, some "qualidade"⟩]).issue_counts.takeWhile
            (fun e => e.1 != "상품 품질"), e.2 < c :=
  ⟨by decide,
   (analyze_primary_first_max [⟨some 5, some "qualidade"⟩]).2 "상품 품질" (by decide)⟩

/-! ## Delivery/inventory rule engine — seasonal risk (`engine/delivery_rules.py`) -/

/-- One per-season entry of `season_stats` (`d["season_stats"]["우기"/"건기"]`).
Fields are read with `.get(key, 0)`, hence `Option` with default 0. -/
structure SeasonEntry where
  delivery_delay_rate : Option ℚ
  avg_transit_days : Option ℚ
deriving DecidableEq

/-- The `season_stats` mapping consumed by `_rule_seasonal_risk`: `none`
models a missing or empty per-season dict (both are falsy in
`if not rainy or not dry`). -/
structure DeliverySeasonStats where
  rainy : Option SeasonEntry
  dry : Option SeasonEntry
deriving DecidableEq

/-- `DeliveryAdvice` of `delivery_rules.py`.  The display-only fields
(`current_value`, `target_value`, `description`, `actions`,
`expected_effect`) are f-string interpolations of the same numbers and are
not modelled. -/
structure DeliveryAdvice where
  title : String
  category : String
  priority : String
deriving DecidableEq

/-- Embedding of `_rule_seasonal_risk`: fires iff both seasons are present
and `rainy_rate - dry_rate` is NOT `< 0.03`. -/
def _rule_seasonal_risk (season_stats : DeliverySeasonStats) : List DeliveryAdvice :=
  match season_stats.rainy, season_stats.dry with
  | some rainy, some dry =>
      let rainy_rate := rainy.delivery_delay_rate.getD 0
      let dry_rate := dry.delivery_delay_rate.getD 0
      let diff := rainy_rate - dry_rate
      if diff < 0.03 then []
      else
        [{ title := "우기 배송 지연 리스크", category := "seasonal",
           priority := if diff > 0.1 then "high" else "medium" }]
  | _, _ => []

/-- C7 counterexample: at a rainy/dry delay gap of exactly 0.03 — which does
NOT exceed 3 percentage points — the rule still fires, because the code
declines only when `diff < 0.03`. -/
theorem seasonal_risk_fires_at_exact_boundary :
    ¬ ((3:ℚ)/100 - 0 > 3/100)
    ∧ _rule_seasonal_risk ⟨some ⟨some (3/100), some 0⟩, some ⟨some 0, some 0⟩⟩ ≠ [] := by
  constructor
  · norm_num
  · simp only [_rule_seasonal_risk]
    norm_num

/-- C7 (amended): the seasonal-risk rule returns advice iff both the rainy
and dry season statistics are present and the rainy-minus-dry delivery-delay
gap is at least 0.03 (3 percentage points, boundary included); otherwise it
returns no advice. -/
theorem seasonal_risk_fires_iff (s : DeliverySeasonStats) :
    _rule_seasonal_risk s ≠ [] ↔
      ∃ rainy dry, s.rainy = some rainy ∧ s.dry = some dry
        ∧ (3:ℚ)/100 ≤ rainy.delivery_delay_rate.getD 0
            - dry.delivery_delay_rate.getD 0 := by
  rcases s with ⟨r, d⟩
  cases r with
  | none => simp [_rule_seasonal_risk]
  | some rainy =>
    cases d with
    | none => simp [_rule_seasonal_risk]
    | some dry =>
      constructor
      · intro hne
        refine ⟨rainy, dry, rfl, rfl, ?_⟩
        by_contra hlt
        push_neg at hlt
        apply hne
        have hlt' : rainy.delivery_delay_rate.getD 0 - dry.delivery_delay_rate.getD 0
            < (0.03 : ℚ) := by norm_num; linarith
        simp [_rule_seasonal_risk, if_pos hlt']
      · rintro ⟨r', d', hr', hd', hge⟩
        have hr2 : r' = rainy := by
          simpa using hr'.symm
        have hd2 : d' = dry := by
          simpa using hd'.symm
        subst hr2; subst hd2
        have hnlt : ¬ (r'.delivery_delay_rate.getD 0 - d'.delivery_delay_rate.getD 0
            < (0.03 : ℚ)) := by
          push_neg
          have : (0.03 : ℚ) = 3/100 := by norm_num
          rw [this]
          exact hge
        simp [_rule_seasonal_risk, if_neg hnlt]

/-! ## Percentile ranks (`data/preprocessor.py`, `compute_percentile_ranks`) -/

/-- One row of the seller-cluster table (`seller_cluster_analysis_data.csv`).
The metric columns are fully populated in that reference CSV, so they are
modelled as plain rationals.  Defaults are a modelling convenience for
writing concrete rows. -/
structure ClusterRow where
  seller_id : String := ""
  cluster : ℤ := -1
  total_orders : ℚ := 0
  total_revenue : ℚ := 0
  avg_price : ℚ := 0
  product_variety : ℚ := 0
  avg_review : ℚ := 0
  unique_customers : ℚ := 0
  items_per_order : ℚ := 0
  low_review_pct : ℚ := 0
  avg_delivery_days : ℚ := 0
  late_delivery_pct : ℚ := 0
deriving DecidableEq

/-- `(cluster_df[col] >= val).mean() * 100` rounded to one decimal:
the share of the population whose value is ≥ the seller's, in percent. -/
def rankGE (table : List ClusterRow) (get : ClusterRow → ℚ) (row : ClusterRow) : ℚ :=
  round1 ((((table.filter (fun r => decide (get row ≤ get r))).length : ℚ)
      / (table.length : ℚ)) * 100)

/-- `(cluster_df[col] <= val).mean() * 100` rounded to one decimal
(the inverted comparison used for "lower is better" metrics). -/
def rankLE (table : List ClusterRow) (get : ClusterRow → ℚ) (row : ClusterRow) : ℚ :=
  round1 ((((table.filter (fun r => decide (get r ≤ get row))).length : ℚ)
      / (table.length : ℚ)) * 100)

/-- Embedding of `compute_percentile_ranks`: the seller's first row in the
cluster table drives seven higher-is-better ranks and three inverted ranks,
in the source's iteration order.  (The source's `col in cluster_df.columns`
guards always succeed on the fixed CSV schema and are not modelled.) -/
def compute_percentile_ranks (cluster_df : List ClusterRow) (seller_id : String) :
    List (String × ℚ) :=
  match (cluster_df.filter (fun r => r.seller_id == seller_id)).head? with
  | none => []
  | some seller_row =>
      [("total_orders", rankGE cluster_df (fun r => r.total_orders) seller_row),
       ("total_revenue", rankGE cluster_df (fun r => r.total_revenue) seller_row),
       ("avg_price", rankGE cluster_df (fun r => r.avg_price) seller_row),
       ("product_variety", rankGE cluster_df (fun r => r.product_variety) seller_row),
       ("avg_review", rankGE cluster_df (fun r => r.avg_review) seller_row),
       ("unique_customers", rankGE cluster_df (fun r => r.unique_customers) seller_row),
       ("items_per_order", rankGE cluster_df (fun r => r.items_per_order) seller_row),
       ("low_review_pct", rankLE cluster_df (fun r => r.low_review_pct) seller_row),
       ("avg_delivery_days", rankLE cluster_df (fun r => r.avg_delivery_days) seller_row),
       ("late_delivery_pct", rankLE cluster_df (fun r => r.late_delivery_pct) seller_row)]

theorem length_filter_mono {α : Type} (l : List α) (p q : α → Bool)
    (h : ∀ a ∈ l, p a = true → q a = true) :
    (l.filter p).length ≤ (l.filter q).length := by
  induction l with
  | nil => simp
  | cons a t ih =>
    have iht := ih (fun x hx hpx => h x (List.mem_cons_of_mem a hx) hpx)
    by_cases hp : p a = true
    · have hq : q a = true := h a (List.mem_cons_self a t) hp
      simp only [List.filter, hp, hq]
      simpa using Nat.succ_le_succ iht
    · rw [Bool.not_eq_true] at hp
      by_cases hq : q a = true
      · simp only [List.filter, hp, hq]
        exact le_trans iht (Nat.le_succ _)
      · rw [Bool.not_eq_true] at hq
        simp only [List.filter, hp, hq]
        exact iht

theorem filter_ratio_bounds (l : List ClusterRow) (p : ClusterRow → Bool) :
    0 ≤ ((l.filter p).length : ℚ) / (l.length : ℚ) * 100
    ∧ ((l.filter p).length : ℚ) / (l.length : ℚ) * 100 ≤ 100 := by
  by_cases h : l.length = 0
  · rw [List.length_eq_zero] at h
    subst h
    norm_num
  · have hl : 0 < (l.length : ℚ) := by
      have : 0 < l.length := Nat.pos_of_ne_zero h
      exact_mod_cast this
    have hle : ((l.filter p).length : ℚ) ≤ (l.length : ℚ) := by
      exact_mod_cast List.length_filter_le p l
    constructor
    · positivity
    · rw [div_mul_eq_mul_div, div_le_iff₀ hl]
      linarith

theorem rank_ratio_mono (l : List ClusterRow) (p q : ClusterRow → Bool)
    (h : ∀ a ∈ l, p a = true → q a = true) :
    ((l.filter p).length : ℚ) / (l.length : ℚ) * 100
      ≤ ((l.filter q).length : ℚ) / (l.length : ℚ) * 100 := by
  by_cases hl : l.length = 0
  · rw [List.length_eq_zero] at hl
    subst hl
    simp
  · have hlpos : 0 < (l.length : ℚ) := by
      have : 0 < l.length := Nat.pos_of_ne_zero hl
      exact_mod_cast this
    have hc : ((l.filter p).length : ℚ) ≤ ((l.filter q).length : ℚ) := by
      exact_mod_cast length_filter_mono l p q h
    gcongr

/-- The seller row selected by `iloc[0]` belongs to the table. -/
theorem selected_row_mem {table : List ClusterRow} {sid : String} {row : ClusterRow}
    (hrow : (table.filter (fun r => r.seller_id == sid)).head? = some row) :
    row ∈ table := by
  have hmem : row ∈ table.filter (fun r => r.seller_id == sid) :=
    List.mem_of_mem_head? hrow
  exact List.mem_of_mem_filter hmem

/-- Three-row cluster table used to exhibit the rounding in percentile ranks. -/
def pctTable : List ClusterRow :=
  [{ seller_id := "A", total_orders := 1 }, { seller_id := "B", total_orders := 2 },
   { seller_id := "C", total_orders := 3 }]

/-- C5 counterexample: population `total_orders` = {1, 2, 3}; for the seller
with value 2 the ≥-share is 2/3, so the claimed rank is 200/3 ≈ 66.666…, but
the code rounds to one decimal and reports 66.7. -/
theorem percentile_rank_rounding_counterexample :
    (compute_percentile_ranks pctTable "B").head? = some ("total_orders", 66.7)
    ∧ ((2:ℚ) / 3) * 100 = 200/3
    ∧ (66.7 : ℚ) ≠ 200/3 := by
  refine ⟨?_, by norm_num, by norm_num⟩
  have hfilt : (pctTable.filter (fun r => r.seller_id == "B")).head?
      = some { seller_id := "B", total_orders := 2 } := by decide
  have hrank : rankGE pctTable (fun r => r.total_orders)
      { seller_id := "B", total_orders := 2 } = 66.7 := by
    have hfl : (pctTable.filter (fun r => decide
        (({ seller_id := "B", total_orders := 2 } : ClusterRow).total_orders
          ≤ r.total_orders))).length = 2 := by decide
    have hlen : (pctTable.length : ℚ) = 3 := by decide
    unfold rankGE
    rw [hfl]
    norm_num [round1, round_eq, hlen]
  simp only [compute_percentile_ranks]
  rw [hfilt]
  simp [hrank]

/-- C5 (amended): each higher-is-better metric's rank is the fraction of the
population whose value is ≥ the seller's, scaled to percent and rounded to
one decimal, with the comparison inverted to ≤ for the three lower-is-better
metrics; every returned rank is in [0,100]; and for any metric accessor at
whose value the seller is the population maximum, the seller's ≥-rank is ≤
the ≥-rank of every other row of the table. -/
theorem compute_percentile_ranks_spec (table : List ClusterRow) (sid : String)
    (row : ClusterRow)
    (hrow : (table.filter (fun r => r.seller_id == sid)).head? = some row) :
    compute_percentile_ranks table sid
      = [("total_orders", rankGE table (fun r => r.total_orders) row),
         ("total_revenue", rankGE table (fun r => r.total_revenue) row),
         ("avg_price", rankGE table (fun r => r.avg_price) row),
         ("product_variety", rankGE table (fun r => r.product_variety) row),
         ("avg_review", rankGE table (fun r => r.avg_review) row),
         ("unique_customers", rankGE table (fun r => r.unique_customers) row),
         ("items_per_order", rankGE table (fun r => r.items_per_order) row),
         ("low_review_pct", rankLE table (fun r => r.low_review_pct) row),
         ("avg_delivery_days", rankLE table (fun r => r.avg_delivery_days) row),
         ("late_delivery_pct", rankLE table (fun r => r.late_delivery_pct) row)]
    ∧ (∀ e ∈ compute_percentile_ranks table sid, 0 ≤ e.2 ∧ e.2 ≤ 100)
    ∧ (∀ get : ClusterRow → ℚ, ∀ row' ∈ table,
        (∀ r ∈ table, get r ≤ get row) →
        rankGE table get row ≤ rankGE table get row') := by
  have heq : compute_percentile_ranks table sid
      = [("total_orders", rankGE table (fun r => r.total_orders) row),
         ("total_revenue", rankGE table (fun r => r.total_revenue) row),
         ("avg_price", rankGE table (fun r => r.avg_price) row),
         ("product_variety", rankGE table (fun r => r.product_variety) row),
         ("avg_review", rankGE table (fun r => r.avg_review) row),
         ("unique_customers", rankGE table (fun r => r.unique_customers) row),
         ("items_per_order", rankGE table (fun r => r.items_per_order) row),
         ("low_review_pct", rankLE table (fun r => r.low_review_pct) row),
         ("avg_delivery_days", rankLE table (fun r => r.avg_delivery_days) row),
         ("late_delivery_pct", rankLE table (fun r => r.late_delivery_pct) row)] := by
    simp only [compute_percentile_ranks, hrow]
  refine ⟨heq, ?_, ?_⟩
  · intro e he
    rw [heq] at he
    have hGE : ∀ get : ClusterRow → ℚ,
        0 ≤ rankGE table get row ∧ rankGE table get row ≤ 100 := by
      intro get
      obtain ⟨h0, h1⟩ := filter_ratio_bounds table (fun r => decide (get row ≤ get r))
      exact ⟨round1_nonneg h0, round1_le_100 h1⟩
    have hLE : ∀ get : ClusterRow → ℚ,
        0 ≤ rankLE table get row ∧ rankLE table get row ≤ 100 := by
      intro get
      obtain ⟨h0, h1⟩ := filter_ratio_bounds table (fun r => decide (get r ≤ get row))
      exact ⟨round1_nonneg h0, round1_le_100 h1⟩
    simp only [List.mem_cons, List.not_mem_nil, or_false] at he
    rcases he with rfl | rfl | rfl | rfl | rfl | rfl | rfl | rfl | rfl | rfl
    · exact hGE _
    · exact hGE _
    · exact hGE _
    · exact hGE _
    · exact hGE _
    · exact hGE _
    · exact hGE _
    · exact hLE _
    · exact hLE _
    · exact hLE _
  · intro get row' hmem' hmax
    unfold rankGE
    apply round1_mono
    apply rank_ratio_mono
    intro a _ hpa
    rw [decide_eq_true_eq] at hpa ⊢
    exact le_trans (hmax row' hmem') hpa

theorem compute_percentile_ranks_spec_witness :
    ([({ seller_id := "A", total_orders := 1 } : ClusterRow)].filter
        (fun r => r.seller_id == "A")).head?
      = some { seller_id := "A", total_orders := 1 }
    ∧ (compute_percentile_ranks [{ seller_id := "A", total_orders := 1 }] "A"
        = [("total_orders", rankGE [{ seller_id := "A", total_orders := 1 }]
              (fun r => r.total_orders) { seller_id := "A", total_orders := 1 }),
           ("total_revenue", rankGE [{ seller_id := "A", total_orders := 1 }]
              (fun r => r.total_revenue) { seller_id := "A", total_orders := 1 }),
           ("avg_price", rankGE [{ seller_id := "A", total_orders := 1 }]
              (fun r => r.avg_price) { seller_id := "A", total_orders := 1 }),
           ("product_variety", rankGE [{ seller_id := "A", total_orders := 1 }]
              (fun r => r.product_variety) { seller_id := "A", total_orders := 1 }),
           ("avg_review", rankGE [{ seller_id := "A", total_orders := 1 }]
              (fun r => r.avg_review) { seller_id := "A", total_orders := 1 }),
           ("unique_customers", rankGE [{ seller_id := "A", total_orders := 1 }]
              (fun r => r.unique_customers) { seller_id := "A", total_orders := 1 }),
           ("items_per_order", rankGE [{ seller_id := "A", total_orders := 1 }]
              (fun r => r.items_per_order) { seller_id := "A", total_orders := 1 }),
           ("low_review_pct", rankLE [{ seller_id := "A", total_orders := 1 }]
              (fun r => r.low_review_pct) { seller_id := "A", total_orders := 1 }),
           ("avg_delivery_days", rankLE [{ seller_id := "A", total_orders := 1 }]
              (fun r => r.avg_delivery_days) { seller_id := "A", total_orders := 1 }),
           ("late_delivery_pct", rankLE [{ seller_id := "A", total_orders := 1 }]
              (fun r => r.late_delivery_pct) { seller_id := "A", total_orders := 1 })]
       ∧ (∀ e ∈ compute_percentile_ranks [{ seller_id := "A", total_orders := 1 }] "A",
            0 ≤ e.2 ∧ e.2 ≤ 100)
       ∧ (∀ get : ClusterRow → ℚ,
            ∀ row' ∈ [({ seller_id := "A", total_orders := 1 } : ClusterRow)],
            (∀ r ∈ [({ seller_id := "A", total_orders := 1 } : ClusterRow)],
              get r ≤ get { seller_id := "A", total_orders := 1 }) →
            rankGE [{ seller_id := "A", total_orders := 1 }] get
                { seller_id := "A", total_orders := 1 }
              ≤ rankGE [{ seller_id := "A", total_orders := 1 }] get row')) :=
  ⟨by decide,
   compute_percentile_ranks_spec [{ seller_id := "A", total_orders := 1 }] "A"
     { seller_id := "A", total_orders := 1 } (by decide)⟩

/-! ## Seller metrics record (`data/preprocessor.py`, dataclass `SellerMetrics`)

The fields consumed by the claims and by the consulting rules are embedded.
Display-only sub-frames (`monthly_*`, `review_distribution`,
`product_cluster_dist`, `customer_cluster_dist`, `payment_type_dist`,
`category_ranks`, `distance_delivery`) and the haversine-based
`avg_distance_km` are presentation data referenced by no claim and are not
modelled. -/
structure SellerMetrics where
  seller_id : String
  seller_state : String := ""
  seller_city : String := ""
  cluster : ℤ := -1
  active_months : ℤ := 0
  total_revenue : ℚ := 0
  total_orders : ℤ := 0
  unique_customers : ℤ := 0
  avg_order_value : ℚ := 0
  avg_review : ℚ := 0
  low_review_pct : ℚ := 0
  avg_delivery_days : ℚ := 0
  late_delivery_pct : ℚ := 0
  product_variety : ℤ := 0
  avg_price : ℚ := 0
  items_per_order : ℚ := 0
  total_items : ℤ := 0
  customer_state_dist : List (String × ℤ) := []
  delivery_days_list : List ℚ := []
  percentiles : List (String × ℚ) := []
  avg_photos : ℚ := 0
  review_keyword_analysis : ReviewAnalysis := ⟨[], [], 0, 0, 0, none⟩
  category_revenue : List (String × ℚ) := []
  avg_installments : ℚ := 0
  credit_card_pct : ℚ := 0
  cancel_rate : ℚ := 0
  cancel_count : ℤ := 0
  repeat_customer_rate : ℚ := 0
  repeat_customer_count : ℤ := 0
deriving DecidableEq

/-! ## Consulting rule engine (`engine/rule_engine.py`) -/

/-- `ConsultingAdvice` of `rule_engine.py`.  Display-only fields
(`current_value`, `target_value`, `description`, `actions`,
`expected_effect`) are f-string interpolations and are not modelled. -/
structure ConsultingAdvice where
  title : String
  category : String
  priority : String
deriving DecidableEq

/-- `CATEGORY_OPPORTUNITY` from `engine/benchmarks.py`. -/
def CATEGORY_OPPORTUNITY : List (String × ℚ) :=
  [("watches_gifts", 7100), ("computers_accessories", 5200),
   ("health_beauty", 4800), ("bed_bath_table", 2657), ("sports_leisure", 2400),
   ("furniture_decor", 2200), ("housewares", 1900), ("auto", 1800),
   ("garden_tools", 1600), ("cool_stuff", 1500)]

/-- `Counter.get(key, 0)` on the embedded counter. -/
def counterGet (c : List (String × ℕ)) (k : String) : ℕ :=
  match c.find? (fun p => p.1 == k) with
  | some p => p.2
  | none => 0

def _rule_review_critical (m : SellerMetrics) : List ConsultingAdvice :=
  if m.avg_review ≤ 0 ∨ m.avg_review ≥ 3.5 then []
  else [{ title := "리뷰 점수 긴급 개선 필요", category := "review", priority := "critical" }]

def _rule_delivery_delay (m : SellerMetrics) : List ConsultingAdvice :=
  if m.late_delivery_pct ≤ 0.10 then []
  else [{ title := "배송 지연율 개선 시급", category := "delivery",
          priority := if m.late_delivery_pct > 0.20 then "critical" else "high" }]

def _rule_product_variety (m : SellerMetrics) : List ConsultingAdvice :=
  if m.product_variety ≥ 10 then []
  else [{ title := "상품 라인업 확대 필요", category := "product", priority := "high" }]

def _rule_photo_shortage (m : SellerMetrics) : List ConsultingAdvice :=
  if m.avg_photos ≥ 2 then []
  else [{ title := "상품 사진 보강 필요", category := "product", priority := "high" }]

def _rule_region_concentration (m : SellerMetrics) : List ConsultingAdvice :=
  if m.customer_state_dist = [] then []
  else
    let total : ℚ := ((m.customer_state_dist.map (fun p => p.2)).sum : ℤ)
    let sp_row := m.customer_state_dist.filter (fun p => p.1 == "SP")
    let sp_share : ℚ :=
      match sp_row.head? with
      | some p => (p.2 : ℚ) / total
      | none => 0
    if sp_share ≤ 0.50 then []
    else [{ title := "시장 다변화 필요 (SP 편중)", category := "reach", priority := "medium" }]

def _rule_review_sweet_spot (m : SellerMetrics) : List ConsultingAdvice :=
  if 3.5 ≤ m.avg_review ∧ m.avg_review < 4.0 then
    [{ title := "리뷰 스위트스팟 — 매출 점프 기회", category := "review", priority := "high" }]
  else []

def _rule_category_expansion (m : SellerMetrics) : List ConsultingAdvice :=
  if m.category_revenue = [] then []
  else
    let current_cats := m.category_revenue.map (fun p => p.1)
    let opportunities := CATEGORY_OPPORTUNITY.filter (fun c => !(current_cats.contains c.1))
    if opportunities = [] then []
    else [{ title := "고기회 카테고리 진출 추천", category := "product", priority := "medium" }]

def _rule_price_optimization (m : SellerMetrics) : List ConsultingAdvice :=
  if m.avg_price ≤ 0 then []
  else if 30 ≤ m.avg_price ∧ m.avg_price ≤ 100 then []
  else if m.avg_price < 30 then
    [{ title := "가격대 상향 검토", category := "pricing", priority := "low" }]
  else
    [{ title := "중저가 라인 추가로 볼륨 확대", category := "pricing", priority := "low" }]

def _rule_delivery_warning (m : SellerMetrics) : List ConsultingAdvice :=
  if m.avg_delivery_days ≤ 20 ∨ m.avg_delivery_days = 0 then []
  else [{ title := "배송일 과다 — 재구매율 급락 위험", category := "delivery", priority := "high" }]

def _rule_low_review_diagnosis (m : SellerMetrics) : List ConsultingAdvice :=
  if m.avg_review ≥ 3.5 ∨ m.avg_review ≤ 0 then []
  else if m.low_review_pct < 0.20 then []
  else
    [{ title := if m.late_delivery_pct > 0.15 ∨ m.avg_delivery_days > 18 then
          "저평가 원인 진단: 배송 문제" else "저평가 원인 진단: 상품 품질/기대치 문제"
     , category := "review", priority := "critical" }]

def _rule_cancel_rate (m : SellerMetrics) : List ConsultingAdvice :=
  if m.cancel_rate ≤ 0.02 then []
  else [{ title := "주문 취소율 관리 필요", category := "delivery",
          priority := if m.cancel_rate > 0.05 then "high" else "medium" }]

def _rule_repeat_customer (m : SellerMetrics) : List ConsultingAdvice :=
  if m.unique_customers < 10 ∨ m.repeat_customer_rate ≥ 0.03 then []
  else [{ title := "재구매 고객 확보 전략 필요", category := "growth", priority := "medium" }]

def _rule_review_keyword_insight (m : SellerMetrics) : List ConsultingAdvice :=
  if m.review_keyword_analysis.issue_counts = [] then []
  else
    match m.review_keyword_analysis.primary_issue with
    | none => []
    | some primary =>
        if m.review_keyword_analysis.analyzed_count = 0 then []
        else
          if ((counterGet m.review_keyword_analysis.issue_counts primary : ℚ)
              / (m.review_keyword_analysis.analyzed_count : ℚ)) < 0.20 then []
          else [{ title := "리뷰 분석: 주요 이슈 집중 개선", category := "review",
                  priority := "high" }]

/-- `priority_order.get(a.priority, 99)`. -/
def priority_order_rank (p : String) : ℕ :=
  if p = "critical" then 0
  else if p = "high" then 1
  else if p = "medium" then 2
  else if p = "low" then 3
  else 99

/-- The concatenation of the 13 rule outputs in catalogue-declaration order
(the list `advices` before the final sort). -/
def collectAdvice (m : SellerMetrics) : List ConsultingAdvice :=
  _rule_review_critical m ++ _rule_delivery_delay m ++ _rule_product_variety m
    ++ _rule_photo_shortage m ++ _rule_region_concentration m
    ++ _rule_review_sweet_spot m ++ _rule_category_expansion m
    ++ _rule_price_optimization m ++ _rule_delivery_warning m
    ++ _rule_low_review_diagnosis m ++ _rule_cancel_rate m
    ++ _rule_repeat_customer m ++ _rule_review_keyword_insight m

/-- The sort key `lambda a: priority_order.get(a.priority, 99)`. -/
def advRank (a : ConsultingAdvice) : ℕ := priority_order_rank a.priority

/-- Embedding of `generate_all_advice`: Python's `list.sort` is a stable sort
by priority rank; insertion sort inserting each earlier element before
later equal-rank elements realises the same stable sort. -/
def generate_all_advice (m : SellerMetrics) : List ConsultingAdvice :=
  List.insertionSort (fun a b => advRank a ≤ advRank b) (collectAdvice m)

theorem rank3_review_critical (m : SellerMetrics) :
    ∀ a ∈ _rule_review_critical m, advRank a ≤ 3 := by
  intro a ha
  unfold _rule_review_critical at ha
  split at ha
  · exact absurd ha (List.not_mem_nil a)
  · rw [List.mem_singleton] at ha
    subst ha
    decide

theorem rank3_delivery_delay (m : SellerMetrics) :
    ∀ a ∈ _rule_delivery_delay m, advRank a ≤ 3 := by
  intro a ha
  unfold _rule_delivery_delay at ha
  split at ha
  · exact absurd ha (List.not_mem_nil a)
  · rw [List.mem_singleton] at ha
    subst ha
    dsimp only [advRank]
    split <;> decide

theorem rank3_product_variety (m : SellerMetrics) :
    ∀ a ∈ _rule_product_variety m, advRank a ≤ 3 := by
  intro a ha
  unfold _rule_product_variety at ha
  split at ha
  · exact absurd ha (List.not_mem_nil a)
  · rw [List.mem_singleton] at ha
    subst ha
    decide

theorem rank3_photo_shortage (m : SellerMetrics) :
    ∀ a ∈ _rule_photo_shortage m, advRank a ≤ 3 := by
  intro a ha
  unfold _rule_photo_shortage at ha
  split at ha
  · exact absurd ha (List.not_mem_nil a)
  · rw [List.mem_singleton] at ha
    subst ha
    decide

theorem rank3_region_concentration (m : SellerMetrics) :
    ∀ a ∈ _rule_region_concentration m, advRank a ≤ 3 := by
  intro a ha
  unfold _rule_region_concentration at ha
  split at ha
  · exact absurd ha (List.not_mem_nil a)
  · dsimp only at ha
    split at ha
    · exact absurd ha (List.not_mem_nil a)
    · rw [List.mem_singleton] at ha
      subst ha
      decide

theorem rank3_review_sweet_spot (m : SellerMetrics) :
    ∀ a ∈ _rule_review_sweet_spot m, advRank a ≤ 3 := by
  intro a ha
  unfold _rule_review_sweet_spot at ha
  split at ha
  · rw [List.mem_singleton] at ha
    subst ha
    decide
  · exact absurd ha (List.not_mem_nil a)

theorem rank3_category_expansion (m : SellerMetrics) :
    ∀ a ∈ _rule_category_expansion m, advRank a ≤ 3 := by
  intro a ha
  unfold _rule_category_expansion at ha
  split at ha
  · exact absurd ha (List.not_mem_nil a)
  · dsimp only at ha
    split at ha
    · exact absurd ha (List.not_mem_nil a)
    · rw [List.mem_singleton] at ha
      subst ha
      decide

theorem rank3_price_optimization (m : SellerMetrics) :
    ∀ a ∈ _rule_price_optimization m, advRank a ≤ 3 := by
  intro a ha
  unfold _rule_price_optimization at ha
  split at ha
  · exact absurd ha (List.not_mem_nil a)
  · split at ha
    · exact absurd ha (List.not_mem_nil a)
    · split at ha
      · rw [List.mem_singleton] at ha
        subst ha
        decide
      · rw [List.mem_singleton] at ha
        subst ha
        decide

theorem rank3_delivery_warning (m : SellerMetrics) :
    ∀ a ∈ _rule_delivery_warning m, advRank a ≤ 3 := by
  intro a ha
  unfold _rule_delivery_warning at ha
  split at ha
  · exact absurd ha (List.not_mem_nil a)
  · rw [List.mem_singleton] at ha
    subst ha
    decide

theorem rank3_low_review_diagnosis (m : SellerMetrics) :
    ∀ a ∈ _rule_low_review_diagnosis m, advRank a ≤ 3 := by
  intro a ha
  unfold _rule_low_review_diagnosis at ha
  split at ha
  · exact absurd ha (List.not_mem_nil a)
  · split at ha
    · exact absurd ha (List.not_mem_nil a)
    · rw [List.mem_singleton] at ha
      subst ha
      dsimp only [advRank]
      decide

theorem rank3_cancel_rate (m : SellerMetrics) :
    ∀ a ∈ _rule_cancel_rate m, advRank a ≤ 3 := by
  intro a ha
  unfold _rule_cancel_rate at ha
  split at ha
  · exact absurd ha (List.not_mem_nil a)
  · rw [List.mem_singleton] at ha
    subst ha
    dsimp only [advRank]
    split <;> decide

theorem rank3_repeat_customer (m : SellerMetrics) :
    ∀ a ∈ _rule_repeat_customer m, advRank a ≤ 3 := by
  intro a ha
  unfold _rule_repeat_customer at ha
  split at ha
  · exact absurd ha (List.not_mem_nil a)
  · rw [List.mem_singleton] at ha
    subst ha
    decide

theorem rank3_review_keyword_insight (m : SellerMetrics) :
    ∀ a ∈ _rule_review_keyword_insight m, advRank a ≤ 3 := by
  intro a ha
  unfold _rule_review_keyword_insight at ha
  split at ha
  · exact absurd ha (List.not_mem_nil a)
  · split at ha
    · exact absurd ha (List.not_mem_nil a)
    · split at ha
      · exact absurd ha (List.not_mem_nil a)
      · split at ha
        · exact absurd ha (List.not_mem_nil a)
        · rw [List.mem_singleton] at ha
          subst ha
          decide

theorem collectAdvice_rank_le (m : SellerMetrics) :
    ∀ a ∈ collectAdvice m, advRank a ≤ 3 := by
  intro a ha
  unfold collectAdvice at ha
  simp only [List.mem_append] at ha
  rcases ha with
    ((((((((((((h | h) | h) | h) | h) | h) | h) | h) | h) | h) | h) | h) | h)
  · exact rank3_review_critical m a h
  · exact rank3_delivery_delay m a h
  · exact rank3_product_variety m a h
  · exact rank3_photo_shortage m a h
  · exact rank3_region_concentration m a h
  · exact rank3_review_sweet_spot m a h
  · exact rank3_category_expansion m a h
  · exact rank3_price_optimization m a h
  · exact rank3_delivery_warning m a h
  · exact rank3_low_review_diagnosis m a h
  · exact rank3_cancel_rate m a h
  · exact rank3_repeat_customer m a h
  · exact rank3_review_keyword_insight m a h

theorem orderedInsert_of_forall_le {a : ConsultingAdvice} (L : List ConsultingAdvice)
    (h : ∀ b ∈ L, advRank a ≤ advRank b) :
    List.orderedInsert (fun x y => advRank x ≤ advRank y) a L = a :: L := by
  cases L with
  | nil => rfl
  | cons b t =>
    simp only [List.orderedInsert, if_pos (h b (List.mem_cons_self b t))]

theorem orderedInsert_append_of_forall_lt {a : ConsultingAdvice}
    (xs ys : List ConsultingAdvice) (h : ∀ b ∈ xs, advRank b < advRank a) :
    List.orderedInsert (fun x y => advRank x ≤ advRank y) a (xs ++ ys)
      = xs ++ List.orderedInsert (fun x y => advRank x ≤ advRank y) a ys := by
  induction xs with
  | nil => rfl
  | cons x t ih =>
    have hx : ¬ (advRank a ≤ advRank x) := not_le.mpr (h x (List.mem_cons_self x t))
    simp only [List.cons_append, List.orderedInsert, if_neg hx, List.append_eq]
    rw [ih (fun b hb => h b (List.mem_cons_of_mem x hb))]

/-- Stable insertion sort by a rank bounded by 3 produces exactly the
rank-0 items in input order, then rank-1, rank-2, rank-3. -/
theorem insertionSort_rank_partition (l : List ConsultingAdvice)
    (hl : ∀ a ∈ l, advRank a ≤ 3) :
    List.insertionSort (fun x y => advRank x ≤ advRank y) l
      = l.filter (fun a => advRank a == 0) ++ l.filter (fun a => advRank a == 1)
        ++ l.filter (fun a => advRank a == 2) ++ l.filter (fun a => advRank a == 3) := by
  induction l with
  | nil => rfl
  | cons a t ih =>
    have ht : ∀ x ∈ t, advRank x ≤ 3 := fun x hx => hl x (List.mem_cons_of_mem a hx)
    have iht := ih ht
    have ha3 : advRank a ≤ 3 := hl a (List.mem_cons_self a t)
    have hm0 : ∀ b ∈ t.filter (fun x => advRank x == 0), advRank b = 0 := by
      intro b hb
      have := (List.mem_filter.mp hb).2
      simpa using this
    have hm1 : ∀ b ∈ t.filter (fun x => advRank x == 1), advRank b = 1 := by
      intro b hb
      have := (List.mem_filter.mp hb).2
      simpa using this
    have hm2 : ∀ b ∈ t.filter (fun x => advRank x == 2), advRank b = 2 := by
      intro b hb
      have := (List.mem_filter.mp hb).2
      simpa using this
    have hm3 : ∀ b ∈ t.filter (fun x => advRank x == 3), advRank b = 3 := by
      intro b hb
      have := (List.mem_filter.mp hb).2
      simpa using this
    simp only [List.insertionSort]
    rw [iht]
    rcases (by omega : advRank a = 0 ∨ advRank a = 1 ∨ advRank a = 2 ∨ advRank a = 3)
      with h | h | h | h
    · rw [orderedInsert_of_forall_le _ (fun b _ => by rw [h]; exact Nat.zero_le _)]
      simp [List.filter_cons, h, List.append_assoc]
    · rw [show t.filter (fun x => advRank x == 0) ++ t.filter (fun x => advRank x == 1)
            ++ t.filter (fun x => advRank x == 2) ++ t.filter (fun x => advRank x == 3)
          = t.filter (fun x => advRank x == 0) ++ (t.filter (fun x => advRank x == 1)
            ++ t.filter (fun x => advRank x == 2) ++ t.filter (fun x => advRank x == 3))
          from by simp [List.append_assoc]]
      rw [orderedInsert_append_of_forall_lt _ _
          (fun b hb => by rw [hm0 b hb, h]; norm_num)]
      rw [orderedInsert_of_forall_le _ ?hle]
      case hle =>
        intro b hb
        rw [h]
        rcases List.mem_append.mp hb with hb | hb
        · rcases List.mem_append.mp hb with hb | hb
          · rw [hm1 b hb]
          · rw [hm2 b hb]; norm_num
        · rw [hm3 b hb]; norm_num
      simp [List.filter_cons, h, List.append_assoc]
    · rw [show t.filter (fun x => advRank x == 0) ++ t.filter (fun x => advRank x == 1)
            ++ t.filter (fun x => advRank x == 2) ++ t.filter (fun x => advRank x == 3)
          = (t.filter (fun x => advRank x == 0) ++ t.filter (fun x => advRank x == 1))
            ++ (t.filter (fun x => advRank x == 2) ++ t.filter (fun x => advRank x == 3))
          from by simp [List.append_assoc]]
      rw [orderedInsert_append_of_forall_lt _ _ ?hlt]
      case hlt =>
        intro b hb
        rw [h]
        rcases List.mem_append.mp hb with hb | hb
        · rw [hm0 b hb]; norm_num
        · rw [hm1 b hb]; norm_num
      rw [orderedInsert_of_forall_le _ ?hle2]
      case hle2 =>
        intro b hb
        rw [h]
        rcases List.mem_append.mp hb with hb | hb
        · rw [hm2 b hb]
        · rw [hm3 b hb]; norm_num
      simp [List.filter_cons, h, List.append_assoc]
    · rw [show t.filter (fun x => advRank x == 0) ++ t.filter (fun x => advRank x == 1)
            ++ t.filter (fun x => advRank x == 2) ++ t.filter (fun x => advRank x == 3)
          = (t.filter (fun x => advRank x == 0) ++ t.filter (fun x => advRank x == 1)
            ++ t.filter (fun x => advRank x == 2)) ++ t.filter (fun x => advRank x == 3)
          from by simp [List.append_assoc]]
      rw [orderedInsert_append_of_forall_lt _ _ ?hlt3]
      case hlt3 =>
        intro b hb
        rw [h]
        rcases List.mem_append.mp hb with hb | hb
        · rcases List.mem_append.mp hb with hb | hb
          · rw [hm0 b hb]; norm_num
          · rw [hm1 b hb]; norm_num
        · rw [hm2 b hb]; norm_num
      rw [orderedInsert_of_forall_le _ (fun b hb => by rw [h, hm3 b hb])]
      simp [List.filter_cons, h, List.append_assoc]

/-- C3: the advice list returned by `generate_all_advice` is stably sorted by
priority rank (critical=0 < high=1 < medium=2 < low=3): adjacent items have
non-decreasing rank, and the list is exactly the rank-0 advice in
catalogue-declaration order, then rank-1, rank-2, rank-3 — so ties keep the
fixed order of the 13 rules. -/
theorem generate_all_advice_sorted_stable (m : SellerMetrics) :
    List.Pairwise (fun a b => advRank a ≤ advRank b) (generate_all_advice m)
    ∧ generate_all_advice m
      = (collectAdvice m).filter (fun a => advRank a == 0)
        ++ (collectAdvice m).filter (fun a => advRank a == 1)
        ++ (collectAdvice m).filter (fun a => advRank a == 2)
        ++ (collectAdvice m).filter (fun a => advRank a == 3) := by
  constructor
  · haveI : IsTotal ConsultingAdvice (fun x y => advRank x ≤ advRank y) :=
      ⟨fun x y => Nat.le_total _ _⟩
    haveI : IsTrans ConsultingAdvice (fun x y => advRank x ≤ advRank y) :=
      ⟨fun x y z hxy hyz => le_trans hxy hyz⟩
    exact List.sorted_insertionSort _ _
  · exact insertionSort_rank_partition (collectAdvice m) (collectAdvice_rank_le m)

/-! ## Metrics aggregation (`data/preprocessor.py`, `compute_seller_metrics`)

One row of the joined transactional table built by `build_merged_table`.
`is_late` is a plain `Bool`: the source computes it as a datetime comparison
whose pandas result is a non-nullable boolean column (NaT compares `False`).
`delivery_days` is `(delivered − purchase).total_seconds()/86400`, null when
either timestamp is missing.  `order_purchase_timestamp` is measured in days
so that the source's `.days` truncation is `Int.floor`. -/
structure MergedRow where
  order_id : String
  seller_id : String := ""
  customer_unique_id : String := ""
  order_status : String := ""
  price : ℚ := 0
  freight_value : ℚ := 0
  product_id : String := ""
  review_score : Option ℚ := none
  review_comment_message : Option String := none
  order_purchase_timestamp : Option ℚ := none
  delivery_days : Option ℚ := none
  is_late : Bool := false
  product_photos_qty : Option ℚ := none
  product_category_name_english : Option String := none
  customer_state : Option String := none
  customer_zip_code_prefix : Option ℤ := none
deriving DecidableEq

/-- One row of `olist_sellers_dataset.csv`. -/
structure SellerRow where
  seller_id : String
  seller_state : String := ""
  seller_city : String := ""
  seller_zip_code_prefix : ℤ := 0
deriving DecidableEq

/-- One row of the payments table. -/
structure PaymentRow where
  order_id : String
  payment_type : String := ""
  payment_installments : ℚ := 0
deriving DecidableEq

def listMax : List ℚ → ℚ
  | [] => 0
  | a :: t => t.foldl max a

def listMin : List ℚ → ℚ
  | [] => 0
  | a :: t => t.foldl min a

/-- `DataFrame.drop_duplicates("order_id")`: keep the first row per order id. -/
def dedupByOrder (seen : List String) : List MergedRow → List MergedRow
  | [] => []
  | r :: t =>
      if seen.contains r.order_id then dedupByOrder seen t
      else r :: dedupByOrder (r.order_id :: seen) t

/-- `groupby("customer_state")["customer_unique_id"].nunique()` sorted by
count descending, top 10.  (pandas `sort_values` uses an unstable quicksort,
so the relative order of equal counts is unspecified there; no claim depends
on it.) -/
def customerStateDist (seller_data : List MergedRow) : List (String × ℤ) :=
  let states := (seller_data.filterMap (fun r => r.customer_state)).dedup
  let pairs := states.map (fun s => (s,
      (((seller_data.filter (fun r => r.customer_state == some s)).map
          (fun r => r.customer_unique_id)).dedup.length : ℤ)))
  (List.insertionSort (fun a b => b.2 ≤ a.2) pairs).take 10

/-- `groupby("product_category_name_english")["price"].sum()` sorted
descending, top 10 (same unstable-sort caveat as `customerStateDist`). -/
def categoryRevenue (seller_data : List MergedRow) : List (String × ℚ) :=
  let cats := (seller_data.filterMap (fun r => r.product_category_name_english)).dedup
  let pairs := cats.map (fun c => (c,
      ((seller_data.filter (fun r => r.product_category_name_english == some c)).map
          (fun r => r.price)).sum))
  (List.insertionSort (fun a b => b.2 ≤ a.2) pairs).take 10

/-- Embedding of `compute_seller_metrics`.  The loaded tables are passed
explicitly; `None` is the "seller absent" result.  Fields the dataclass
fills from display-only sub-frames are not modelled (see `SellerMetrics`). -/
def compute_seller_metrics (merged : List MergedRow) (sellers : List SellerRow)
    (seller_clusters : List ClusterRow) (payments : List PaymentRow)
    (seller_id : String) : Option SellerMetrics :=
  let seller_data := merged.filter (fun r => r.seller_id == seller_id)
  if seller_data.isEmpty then none
  else
    let seller_info := (sellers.filter (fun r => r.seller_id == seller_id)).head?
    let cluster_row := (seller_clusters.filter (fun r => r.seller_id == seller_id)).head?
    let delivered := seller_data.filter (fun r => r.order_status == "delivered")
    let timestamps := seller_data.filterMap (fun r => r.order_purchase_timestamp)
    let total_orders : ℤ := ((seller_data.map (fun r => r.order_id)).dedup.length : ℤ)
    let total_revenue : ℚ := (seller_data.map (fun r => r.price)).sum
    let reviews := seller_data.filterMap (fun r => r.review_score)
    let delivery := delivered.filterMap (fun r => r.delivery_days)
    let late := delivered.map (fun r => r.is_late)
    let photos := seller_data.filterMap (fun r => r.product_photos_qty)
    let order_statuses := (dedupByOrder [] seller_data).map (fun r => r.order_status)
    let canceled := (order_statuses.filter
        (fun s => s == "canceled" || s == "unavailable")).length
    let custs := (seller_data.map (fun r => r.customer_unique_id)).dedup
    let repeats := (custs.filter (fun c =>
        1 < ((seller_data.filter (fun r => r.customer_unique_id == c)).map
            (fun r => r.order_id)).dedup.length)).length
    let seller_orders := (seller_data.map (fun r => r.order_id)).dedup
    let seller_payments := payments.filter (fun p => seller_orders.contains p.order_id)
    let credit := seller_payments.filter (fun p => p.payment_type == "credit_card")
    some {
      seller_id := seller_id
      seller_state := match seller_info with | some si => si.seller_state | none => ""
      seller_city := match seller_info with | some si => si.seller_city | none => ""
      cluster := match cluster_row with | some cr => cr.cluster | none => -1
      active_months := if timestamps ≠ [] then
          max 1 ((Int.floor (listMax timestamps - listMin timestamps)) / 30) else 0
      total_revenue := total_revenue
      total_orders := total_orders
      unique_customers := (custs.length : ℤ)
      avg_order_value := if 0 < total_orders then total_revenue / (total_orders : ℚ) else 0
      total_items := (seller_data.length : ℤ)
      items_per_order := if 0 < total_orders then
          (seller_data.length : ℚ) / (total_orders : ℚ) else 0
      product_variety := ((seller_data.map (fun r => r.product_id)).dedup.length : ℤ)
      avg_price := if seller_data ≠ [] then listMean (seller_data.map (fun r => r.price)) else 0
      avg_review := if reviews ≠ [] then listMean reviews else 0
      low_review_pct := if reviews ≠ [] then
          ((reviews.filter (fun s => decide (s ≤ 2))).length : ℚ) / (reviews.length : ℚ)
        else 0
      avg_delivery_days := if delivery ≠ [] then listMean delivery else 0
      delivery_days_list := delivery
      late_delivery_pct := if late ≠ [] then
          ((late.filter (fun b => b)).length : ℚ) / (late.length : ℚ) else 0
      avg_photos := if photos ≠ [] then listMean photos else 0
      customer_state_dist := customerStateDist seller_data
      category_revenue := categoryRevenue seller_data
      percentiles := compute_percentile_ranks seller_clusters seller_id
      review_keyword_analysis := analyze_seller_reviews
          (seller_data.filterMap (fun r => r.review_score.map
              (fun s => ReviewRow.mk (some s) r.review_comment_message)))
      avg_installments := if seller_payments ≠ [] ∧ credit ≠ [] then
          listMean (credit.map (fun p => p.payment_installments)) else 0
      credit_card_pct := if seller_payments ≠ [] then
          (credit.length : ℚ) / (seller_payments.length : ℚ) else 0
      cancel_count := if order_statuses.length ≠ 0 then (canceled : ℤ) else 0
      cancel_rate := if order_statuses.length ≠ 0 then
          (canceled : ℚ) / (order_statuses.length : ℚ) else 0
      repeat_customer_count := if custs.length ≠ 0 then (repeats : ℤ) else 0
      repeat_customer_rate := if custs.length ≠ 0 then
          (repeats : ℚ) / (custs.length : ℚ) else 0
    }

/-- C1: `compute_seller_metrics` returns the explicit absent result `none`
exactly when the seller has no row in the joined table, and otherwise a full
record (the embedding is a total function, so no exception is possible). -/
theorem compute_seller_metrics_none_iff (merged : List MergedRow)
    (sellers : List SellerRow) (seller_clusters : List ClusterRow)
    (payments : List PaymentRow) (sid : String) :
    (compute_seller_metrics merged sellers seller_clusters payments sid = none
      ↔ merged.filter (fun r => r.seller_id == sid) = [])
    ∧ (merged.filter (fun r => r.seller_id == sid) ≠ [] →
        ∃ m, compute_seller_metrics merged sellers seller_clusters payments sid = some m
          ∧ m.seller_id = sid) := by
  by_cases hl : merged.filter (fun r => r.seller_id == sid) = []
  · constructor
    · constructor
      · intro _
        exact hl
      · intro _
        simp [compute_seller_metrics, hl]
    · intro h
      exact absurd hl h
  · constructor
    · constructor
      · intro h
        simp only [compute_seller_metrics] at h
        rw [if_neg (by simpa using hl)] at h
        exact absurd h (by simp)
      · intro h
        exact absurd h hl
    · intro _
      simp only [compute_seller_metrics]
      rw [if_neg (by simpa using hl)]
      exact ⟨_, rfl, rfl⟩

theorem compute_seller_metrics_none_iff_witness :
    [({ order_id := "o1", seller_id := "s" } : MergedRow)].filter
        (fun r => r.seller_id == "s") ≠ []
    ∧ ∃ m, compute_seller_metrics [{ order_id := "o1", seller_id := "s" }] [] [] [] "s"
          = some m ∧ m.seller_id = "s" :=
  ⟨by decide,
   (compute_seller_metrics_none_iff [{ order_id := "o1", seller_id := "s" }] [] [] [] "s").2
     (by decide)⟩

theorem filter_ratio01 {α : Type} (l : List α) (p : α → Bool) :
    0 ≤ ((l.filter p).length : ℚ) / (l.length : ℚ)
    ∧ ((l.filter p).length : ℚ) / (l.length : ℚ) ≤ 1 := by
  by_cases h : l.length = 0
  · rw [List.length_eq_zero] at h
    subst h
    norm_num
  · have hl : 0 < (l.length : ℚ) := by
      have : 0 < l.length := Nat.pos_of_ne_zero h
      exact_mod_cast this
    have hle : ((l.filter p).length : ℚ) ≤ (l.length : ℚ) := by
      exact_mod_cast List.length_filter_le p l
    constructor
    · positivity
    · rw [div_le_one hl]
      exact hle

/-- C9 (amended): every record returned by `compute_seller_metrics` has its
rate fields in [0,1] and its count fields non-negative, and
`active_months ≥ 1` whenever at least one matching row carries a non-null
purchase timestamp. -/
theorem compute_seller_metrics_invariants (merged : List MergedRow)
    (sellers : List SellerRow) (seller_clusters : List ClusterRow)
    (payments : List PaymentRow) (sid : String) (m : SellerMetrics)
    (hm : compute_seller_metrics merged sellers seller_clusters payments sid = some m) :
    (0 ≤ m.low_review_pct ∧ m.low_review_pct ≤ 1)
    ∧ (0 ≤ m.late_delivery_pct ∧ m.late_delivery_pct ≤ 1)
    ∧ (0 ≤ m.cancel_rate ∧ m.cancel_rate ≤ 1)
    ∧ (0 ≤ m.repeat_customer_rate ∧ m.repeat_customer_rate ≤ 1)
    ∧ (0 ≤ m.credit_card_pct ∧ m.credit_card_pct ≤ 1)
    ∧ 0 ≤ m.total_orders ∧ 0 ≤ m.unique_customers ∧ 0 ≤ m.total_items
    ∧ 0 ≤ m.product_variety ∧ 0 ≤ m.cancel_count ∧ 0 ≤ m.repeat_customer_count
    ∧ ((∃ r ∈ merged.filter (fun r => r.seller_id == sid),
          r.order_purchase_timestamp ≠ none) → 1 ≤ m.active_months) := by
  simp only [compute_seller_metrics] at hm
  split at hm
  · exact Option.noConfusion hm
  · rw [Option.some.injEq] at hm
    subst hm
    refine ⟨?_, ?_, ?_, ?_, ?_, ?_, ?_, ?_, ?_, ?_, ?_, ?_⟩
    · dsimp only
      split
      · exact filter_ratio01 _ _
      · norm_num
    · dsimp only
      split
      · exact filter_ratio01 _ _
      · norm_num
    · dsimp only
      split
      · exact filter_ratio01 _ _
      · norm_num
    · dsimp only
      split
      · exact filter_ratio01 _ _
      · norm_num
    · dsimp only
      split
      · exact filter_ratio01 _ _
      · norm_num
    · dsimp only
      exact Int.natCast_nonneg _
    · dsimp only
      exact Int.natCast_nonneg _
    · dsimp only
      exact Int.natCast_nonneg _
    · dsimp only
      exact Int.natCast_nonneg _
    · dsimp only
      split
      · exact Int.natCast_nonneg _
      · exact le_refl 0
    · dsimp only
      split
      · exact Int.natCast_nonneg _
      · exact le_refl 0
    · intro hex
      obtain ⟨r, hr, hts⟩ := hex
      dsimp only
      have hne : (merged.filter (fun r => r.seller_id == sid)).filterMap
          (fun r => r.order_purchase_timestamp) ≠ [] := by
        obtain ⟨v, hv⟩ := Option.ne_none_iff_exists.mp hts
        intro hemp
        have hmem : v ∈ (merged.filter (fun r => r.seller_id == sid)).filterMap
            (fun r => r.order_purchase_timestamp) :=
          List.mem_filterMap.mpr ⟨r, hr, hv.symm⟩
        rw [hemp] at hmem
        exact absurd hmem (List.not_mem_nil v)
      rw [if_pos hne]
      exact le_max_left 1 _

/-- C9 counterexample: a single joined row whose purchase timestamp is null
yields a record with one order but `active_months = 0`, violating the claim
that `active_months ≥ 1` whenever the seller has at least one order. -/
theorem active_months_zero_counterexample :
    (compute_seller_metrics [{ order_id := "o1", seller_id := "s" }] [] [] [] "s").map
        (fun m => (m.total_orders, m.active_months))
      = some (1, 0)
    ∧ ¬ (1 ≤ (0:ℤ)) := by
  refine ⟨by decide, by decide⟩

theorem compute_seller_metrics_invariants_witness :
    ∃ m, compute_seller_metrics
        [{ order_id := "o1", seller_id := "s", order_purchase_timestamp := some 0 }]
        [] [] [] "s" = some m
      ∧ (0 ≤ m.low_review_pct ∧ m.low_review_pct ≤ 1) ∧ 1 ≤ m.active_months := by
  rcases hsome : compute_seller_metrics
      [{ order_id := "o1", seller_id := "s", order_purchase_timestamp := some 0 }]
      [] [] [] "s" with _ | m
  · exact absurd hsome (by decide)
  · have h := compute_seller_metrics_invariants
      [{ order_id := "o1", seller_id := "s", order_purchase_timestamp := some 0 }]
      [] [] [] "s" m hsome
    obtain ⟨h1, _, _, _, _, _, _, _, _, _, _, himp⟩ := h
    refine ⟨m, rfl, h1, himp ?_⟩
    exact ⟨{ order_id := "o1", seller_id := "s", order_purchase_timestamp := some 0 },
      by decide, by decide⟩

/-! ## Logistics simulator (`data/logistics_analyzer.py`, `compute_seller_logistics`)

The haversine distance (transcendental) is abstracted as the parameter
`dist`; every property proved about the simulator is independent of the
distance function's values. -/

/-- One row of the deduplicated geolocation table (one row per ZIP prefix). -/
structure GeoRow where
  geolocation_zip_code_prefix : ℤ
  geolocation_lat : ℚ := 0
  geolocation_lng : ℚ := 0
deriving DecidableEq

/-- One row of the 5-row warehouse master (`warehouse_recommendations.csv`). -/
structure WhRow where
  warehouse_id : ℤ := 0
  lat : ℚ := 0
  lng : ℚ := 0
  nearest_city : String := ""
  state : String := ""
  region : String := ""
deriving DecidableEq

/-- One row of `warehouse_scenario_comparison.csv`. -/
structure ScenRow where
  scenario : String := ""
  avg_distance_km : ℚ := 0
  est_avg_freight : ℚ := 0
  est_avg_days : ℚ := 0
deriving DecidableEq

/-- One entry of the `simulation` list. -/
structure Scenario where
  scenario : String
  avg_distance : ℚ
  est_freight : ℚ
  est_days : ℚ
deriving DecidableEq

/-- A warehouse row augmented with the seller-specific distance columns. -/
structure WhAug where
  base : WhRow
  seller_to_wh_km : ℚ
  customer_to_wh_km : ℚ
  distance_reduction_km : ℚ
  reduction_pct : ℚ
deriving DecidableEq

/-- The `best_warehouse` dict; `none` models the initial `{}`. -/
structure BestWarehouse where
  id : ℤ
  city : String
  state : String
  region : String
  seller_to_wh_km : ℚ
  customer_to_wh_km : ℚ
  reduction_km : ℚ
  reduction_pct : ℚ
deriving DecidableEq

/-- The result dict of `compute_seller_logistics`.  The display frames
`customer_points` and `region_effect` are referenced by no claim and are not
modelled. -/
structure LogisticsResult where
  seller_lat : Option ℚ
  seller_lng : Option ℚ
  seller_state : String
  avg_distance : ℚ
  avg_freight : ℚ
  avg_delivery_days : ℚ
  late_pct : ℚ
  platform_avg_distance : ℚ
  platform_avg_freight : ℚ
  platform_avg_delivery_days : ℚ
  warehouse_recs : List WhAug
  best_warehouse : Option BestWarehouse
  simulation : List Scenario
deriving DecidableEq

/-- The warehouse table augmented with the seller-specific distance columns
and sorted ascending by average customer-to-warehouse distance
(`wh.sort_values("customer_to_wh_km")`; pandas quicksort ties unspecified,
no claim depends on them). -/
def whAugmented (dist : ℚ → ℚ → ℚ → ℚ → ℚ) (cust : List (MergedRow × GeoRow))
    (slat slng avg_distance : ℚ) (wh_recs : List WhRow) : List WhAug :=
  List.insertionSort (fun a b => a.customer_to_wh_km ≤ b.customer_to_wh_km)
    (wh_recs.map (fun w =>
      let cwd := listMean (cust.map
          (fun p => dist p.2.geolocation_lat p.2.geolocation_lng w.lat w.lng))
      { base := w
        seller_to_wh_km := dist slat slng w.lat w.lng
        customer_to_wh_km := cwd
        distance_reduction_km := avg_distance - cwd
        reduction_pct := round1 ((avg_distance - cwd) / avg_distance * 100) }))

/-- The customer join of the delivered rows with the geolocation table
(inner merge on the customer ZIP prefix; a null prefix matches nothing). -/
def custJoin (merged : List MergedRow) (geo : List GeoRow) (seller_id : String) :
    List (MergedRow × GeoRow) :=
  (merged.filter (fun r => r.seller_id == seller_id && r.order_status == "delivered")).flatMap
    (fun r => (geo.filter
        (fun g => some g.geolocation_zip_code_prefix == r.customer_zip_code_prefix)).map
      (fun g => (r, g)))

/-- Embedding of `compute_seller_logistics`.  Scenario labels are the
source's f-strings with interpolations elided.  On an empty warehouse table
the source would raise `IndexError` at `wh.iloc[0]`; the fixed network always
has five rows, and the early-return result is used for that unreachable
branch here. -/
def compute_seller_logistics (dist : ℚ → ℚ → ℚ → ℚ → ℚ)
    (merged : List MergedRow) (geo : List GeoRow) (sellers : List SellerRow)
    (wh_recs : List WhRow) (wh_scenarios : List ScenRow)
    (seller_id : String) : LogisticsResult :=
  let result0 : LogisticsResult := {
    seller_lat := none, seller_lng := none, seller_state := "",
    avg_distance := 0, avg_freight := 0, avg_delivery_days := 0, late_pct := 0,
    platform_avg_distance := 0, platform_avg_freight := 0,
    platform_avg_delivery_days := 0,
    warehouse_recs := [], best_warehouse := none, simulation := [] }
  match (sellers.filter (fun r => r.seller_id == seller_id)).head? with
  | none => result0
  | some seller_info =>
    let result1 := { result0 with seller_state := seller_info.seller_state }
    match (geo.filter (fun g =>
        g.geolocation_zip_code_prefix == seller_info.seller_zip_code_prefix)).head? with
    | none => result1
    | some sgeo =>
      let slat := sgeo.geolocation_lat
      let slng := sgeo.geolocation_lng
      let result2 := { result1 with seller_lat := some slat, seller_lng := some slng }
      if (merged.filter (fun r =>
          r.seller_id == seller_id && r.order_status == "delivered")).isEmpty then
        result2
      else
        let cust := custJoin merged geo seller_id
        if cust.isEmpty then result2
        else
          let avg_distance := listMean (cust.map
              (fun p => dist slat slng p.2.geolocation_lat p.2.geolocation_lng))
          let avg_freight := listMean (cust.map (fun p => p.1.freight_value))
          let dd := cust.filterMap (fun p => p.1.delivery_days)
          let avg_dd := if 0 < dd.length then listMean dd else 0
          let late_pct := if 0 < cust.length then
              ((cust.filter (fun p => p.1.is_late)).length : ℚ) / (cust.length : ℚ)
            else 0
          let platform := (wh_scenarios.filter (fun s => s.scenario == "현재(셀러직배)")).head?
          let whSorted := whAugmented dist cust slat slng avg_distance wh_recs
          let result3 := { result2 with
            avg_distance := avg_distance, avg_freight := avg_freight,
            avg_delivery_days := avg_dd, late_pct := late_pct,
            platform_avg_distance :=
              match platform with | some p => p.avg_distance_km | none => 0,
            platform_avg_freight :=
              match platform with | some p => p.est_avg_freight | none => 0,
            platform_avg_delivery_days :=
              match platform with | some p => p.est_avg_days | none => 0,
            warehouse_recs := whSorted }
          match whSorted with
          | [] => result3
          | best :: rest =>
            let avg_1 := listMean (cust.map (fun p =>
              dist p.2.geolocation_lat p.2.geolocation_lng best.base.lat best.base.lng))
            let top3 := (best :: rest).take 3
            let avg_3 := listMean (cust.map (fun p => listMin (top3.map (fun w =>
              dist p.2.geolocation_lat p.2.geolocation_lng w.base.lat w.base.lng))))
            let avg_5 := listMean (cust.map (fun p => listMin ((best :: rest).map (fun w =>
              dist p.2.geolocation_lat p.2.geolocation_lng w.base.lat w.base.lng))))
            { result3 with
              best_warehouse := some {
                id := best.base.warehouse_id, city := best.base.nearest_city,
                state := best.base.state, region := best.base.region,
                seller_to_wh_km := best.seller_to_wh_km,
                customer_to_wh_km := best.customer_to_wh_km,
                reduction_km := best.distance_reduction_km,
                reduction_pct := best.reduction_pct }
              simulation := [
                { scenario := "현재 (직배)", avg_distance := avg_distance,
                  est_freight := avg_freight, est_days := avg_dd },
                { scenario := "최근접 창고", avg_distance := avg_1,
                  est_freight := 0.0104 * avg_1 + 13.70,
                  est_days := 0.00606 * avg_1 + 8.64 },
                { scenario := "3개 창고 활용", avg_distance := avg_3,
                  est_freight := 0.0104 * avg_3 + 13.70,
                  est_days := 0.00606 * avg_3 + 8.64 },
                { scenario := "5개 창고 활용", avg_distance := avg_5,
                  est_freight := 0.0104 * avg_5 + 13.70,
                  est_days := 0.00606 * avg_5 + 8.64 }] }

/-- C10: for a seller present in the sellers table whose ZIP prefix has no
geolocation match, or who has no delivered order, or none of whose delivered
orders join to a geolocated customer, `compute_seller_logistics` returns the
initialized default result: an empty simulation list (fewer than four
scenarios for callers), zero averages, empty warehouse table, no best
warehouse — and, being a total function, it never raises and never returns
an absent value. -/
theorem compute_seller_logistics_insufficient_data (dist : ℚ → ℚ → ℚ → ℚ → ℚ)
    (merged : List MergedRow) (geo : List GeoRow) (sellers : List SellerRow)
    (wh_recs : List WhRow) (wh_scenarios : List ScenRow) (sid : String)
    (si : SellerRow)
    (hsi : (sellers.filter (fun r => r.seller_id == sid)).head? = some si)
    (hcase : (geo.filter (fun g =>
          g.geolocation_zip_code_prefix == si.seller_zip_code_prefix)).head? = none
      ∨ (merged.filter (fun r =>
          r.seller_id == sid && r.order_status == "delivered")).isEmpty = true
      ∨ (custJoin merged geo sid).isEmpty = true) :
    (compute_seller_logistics dist merged geo sellers wh_recs wh_scenarios sid).simulation = []
    ∧ (compute_seller_logistics dist merged geo sellers wh_recs wh_scenarios sid).avg_distance = 0
    ∧ (compute_seller_logistics dist merged geo sellers wh_recs wh_scenarios sid).avg_freight = 0
    ∧ (compute_seller_logistics dist merged geo sellers wh_recs wh_scenarios sid).avg_delivery_days = 0
    ∧ (compute_seller_logistics dist merged geo sellers wh_recs wh_scenarios sid).late_pct = 0
    ∧ (compute_seller_logistics dist merged geo sellers wh_recs wh_scenarios sid).warehouse_recs = []
    ∧ (compute_seller_logistics dist merged geo sellers wh_recs wh_scenarios sid).best_warehouse = none
    ∧ (compute_seller_logistics dist merged geo sellers wh_recs wh_scenarios sid).seller_state
        = si.seller_state := by
  simp only [compute_seller_logistics, hsi]
  cases hg : (geo.filter (fun g =>
      g.geolocation_zip_code_prefix == si.seller_zip_code_prefix)).head? with
  | none => exact ⟨rfl, rfl, rfl, rfl, rfl, rfl, rfl, rfl⟩
  | some sg =>
    dsimp only
    rcases hcase with h | h | h
    · rw [hg] at h
      exact Option.noConfusion h
    · rw [if_pos h]
      exact ⟨rfl, rfl, rfl, rfl, rfl, rfl, rfl, rfl⟩
    · by_cases hd : (merged.filter (fun r =>
          r.seller_id == sid && r.order_status == "delivered")).isEmpty = true
      · rw [if_pos hd]
        exact ⟨rfl, rfl, rfl, rfl, rfl, rfl, rfl, rfl⟩
      · rw [if_neg hd, if_pos h]
        exact ⟨rfl, rfl, rfl, rfl, rfl, rfl, rfl, rfl⟩

theorem compute_seller_logistics_insufficient_data_witness :
    ([({ seller_id := "s", seller_state := "SP" } : SellerRow)].filter
        (fun r => r.seller_id == "s")).head?
      = some { seller_id := "s", seller_state := "SP" }
    ∧ ((compute_seller_logistics (fun _ _ _ _ => 0) [] []
          [{ seller_id := "s", seller_state := "SP" }] [] [] "s").simulation = []
       ∧ (compute_seller_logistics (fun _ _ _ _ => 0) [] []
          [{ seller_id := "s", seller_state := "SP" }] [] [] "s").avg_distance = 0
       ∧ (compute_seller_logistics (fun _ _ _ _ => 0) [] []
          [{ seller_id := "s", seller_state := "SP" }] [] [] "s").avg_freight = 0
       ∧ (compute_seller_logistics (fun _ _ _ _ => 0) [] []
          [{ seller_id := "s", seller_state := "SP" }] [] [] "s").avg_delivery_days = 0
       ∧ (compute_seller_logistics (fun _ _ _ _ => 0) [] []
          [{ seller_id := "s", seller_state := "SP" }] [] [] "s").late_pct = 0
       ∧ (compute_seller_logistics (fun _ _ _ _ => 0) [] []
          [{ seller_id := "s", seller_state := "SP" }] [] [] "s").warehouse_recs = []
       ∧ (compute_seller_logistics (fun _ _ _ _ => 0) [] []
          [{ seller_id := "s", seller_state := "SP" }] [] [] "s").best_warehouse = none
       ∧ (compute_seller_logistics (fun _ _ _ _ => 0) [] []
          [{ seller_id := "s", seller_state := "SP" }] [] [] "s").seller_state
          = ({ seller_id := "s", seller_state := "SP" } : SellerRow).seller_state) :=
  ⟨by decide,
   compute_seller_logistics_insufficient_data (fun _ _ _ _ => 0) [] []
     [{ seller_id := "s", seller_state := "SP" }] [] [] "s"
     { seller_id := "s", seller_state := "SP" } (by decide) (Or.inl (by decide))⟩

theorem foldl_min_le_init (l : List ℚ) : ∀ b : ℚ, l.foldl min b ≤ b := by
  induction l with
  | nil => intro b; exact le_refl b
  | cons a t ih =>
    intro b
    exact le_trans (ih (min b a)) (min_le_left b a)

theorem listMean_map_mono {α : Type} (l : List α) (f g : α → ℚ)
    (h : ∀ x ∈ l, f x ≤ g x) : listMean (l.map f) ≤ listMean (l.map g) := by
  unfold listMean
  simp only [List.length_map]
  rcases Nat.eq_zero_or_pos l.length with hl | hl
  · rw [List.length_eq_zero] at hl
    subst hl
    simp
  · have hlpos : 0 < (l.length : ℚ) := by exact_mod_cast hl
    have hsum : (l.map f).sum ≤ (l.map g).sum := List.sum_le_sum h
    exact (div_le_div_iff_of_pos_right hlpos).mpr hsum

/-- C4: for a seller with at least one delivered geolocated order (and the
non-empty fixed warehouse network), the simulation has its four scenarios and
the mean customer distance is monotone in network size:
5-warehouse ≤ 3-warehouse ≤ single-nearest-warehouse.  Adding warehouses can
only shrink each customer's minimum-distance assignment, for any distance
function. -/
theorem simulation_scenario_monotone (dist : ℚ → ℚ → ℚ → ℚ → ℚ)
    (merged : List MergedRow) (geo : List GeoRow) (sellers : List SellerRow)
    (wh_recs : List WhRow) (wh_scenarios : List ScenRow) (sid : String)
    (si : SellerRow) (sgeo : GeoRow)
    (hsi : (sellers.filter (fun r => r.seller_id == sid)).head? = some si)
    (hgeo : (geo.filter (fun g =>
        g.geolocation_zip_code_prefix == si.seller_zip_code_prefix)).head? = some sgeo)
    (hdel : (merged.filter (fun r =>
        r.seller_id == sid && r.order_status == "delivered")).isEmpty = false)
    (hcust : (custJoin merged geo sid).isEmpty = false)
    (hwh : wh_recs ≠ []) :
    ∃ s0 s1 s2 s3,
      (compute_seller_logistics dist merged geo sellers wh_recs wh_scenarios sid).simulation
        = [s0, s1, s2, s3]
      ∧ s3.avg_distance ≤ s2.avg_distance ∧ s2.avg_distance ≤ s1.avg_distance := by
  have hws : whAugmented dist (custJoin merged geo sid) sgeo.geolocation_lat
      sgeo.geolocation_lng (listMean ((custJoin merged geo sid).map
        (fun p => dist sgeo.geolocation_lat sgeo.geolocation_lng
          p.2.geolocation_lat p.2.geolocation_lng))) wh_recs ≠ [] := by
    intro hnil
    have hlen := congrArg List.length hnil
    unfold whAugmented at hlen
    rw [List.length_insertionSort, List.length_map] at hlen
    simp only [List.length_nil] at hlen
    exact hwh (List.length_eq_zero.mp hlen)
  obtain ⟨best, rest, hws2⟩ := List.exists_cons_of_ne_nil hws
  simp only [compute_seller_logistics, hsi, hgeo]
  rw [if_neg (by simp [hdel]), if_neg (by simp [hcust])]
  rw [hws2]
  dsimp only
  refine ⟨_, _, _, _, rfl, ?_, ?_⟩
  · apply listMean_map_mono
    intro p _
    have htake : (best :: rest).take 3 = best :: rest.take 2 := rfl
    rw [htake]
    have h5 : listMin ((best :: rest).map (fun w =>
          dist p.2.geolocation_lat p.2.geolocation_lng w.base.lat w.base.lng))
        = (rest.map (fun w =>
          dist p.2.geolocation_lat p.2.geolocation_lng w.base.lat w.base.lng)).foldl min
          (dist p.2.geolocation_lat p.2.geolocation_lng best.base.lat best.base.lng) := rfl
    have h3 : listMin ((best :: rest.take 2).map (fun w =>
          dist p.2.geolocation_lat p.2.geolocation_lng w.base.lat w.base.lng))
        = ((rest.take 2).map (fun w =>
          dist p.2.geolocation_lat p.2.geolocation_lng w.base.lat w.base.lng)).foldl min
          (dist p.2.geolocation_lat p.2.geolocation_lng best.base.lat best.base.lng) := rfl
    rw [h5, h3]
    conv_lhs => rw [← List.take_append_drop 2 rest]
    rw [List.map_append, List.foldl_append]
    exact foldl_min_le_init _ _
  · apply listMean_map_mono
    intro p _
    have htake : (best :: rest).take 3 = best :: rest.take 2 := rfl
    rw [htake]
    have h3 : listMin ((best :: rest.take 2).map (fun w =>
          dist p.2.geolocation_lat p.2.geolocation_lng w.base.lat w.base.lng))
        = ((rest.take 2).map (fun w =>
          dist p.2.geolocation_lat p.2.geolocation_lng w.base.lat w.base.lng)).foldl min
          (dist p.2.geolocation_lat p.2.geolocation_lng best.base.lat best.base.lng) := rfl
    rw [h3]
    exact foldl_min_le_init _ _

theorem simulation_scenario_monotone_witness :
    ∃ s0 s1 s2 s3,
      (compute_seller_logistics (fun _ _ _ _ => 0)
          [{ order_id := "o1", seller_id := "s", order_status := "delivered",
             customer_zip_code_prefix := some 1 }]
          [{ geolocation_zip_code_prefix := 1 }]
          [{ seller_id := "s", seller_zip_code_prefix := 1 }]
          [{ warehouse_id := 1 }, { warehouse_id := 2 }, { warehouse_id := 3 },
           { warehouse_id := 4 }, { warehouse_id := 5 }]
          [] "s").simulation
        = [s0, s1, s2, s3]
      ∧ s3.avg_distance ≤ s2.avg_distance ∧ s2.avg_distance ≤ s1.avg_distance :=
  simulation_scenario_monotone (fun _ _ _ _ => 0)
    [{ order_id := "o1", seller_id := "s", order_status := "delivered",
       customer_zip_code_prefix := some 1 }]
    [{ geolocation_zip_code_prefix := 1 }]
    [{ seller_id := "s", seller_zip_code_prefix := 1 }]
    [{ warehouse_id := 1 }, { warehouse_id := 2 }, { warehouse_id := 3 },
     { warehouse_id := 4 }, { warehouse_id := 5 }]
    [] "s" { seller_id := "s", seller_zip_code_prefix := 1 }
    { geolocation_zip_code_prefix := 1 }
    (by decide) (by decide) (by decide) (by decide) (by decide)
